import Mathlib

/-!
Verification model of the copytrading bot's trade-mirroring engine
(repository `Iluasarg/copytrading-bot`).

The definitions below are a shallow embedding of the TypeScript sources:

* `src/src/services/pumpswap/service.ts` — `PumpSwapService.processTransaction`
  and the PumpPortal WebSocket handler `handleWebSocketMessage` that is part of
  the same source file;
* `src/src/services/raydium/index.ts` — `RaydiumService.processTransaction`;
* `src/src/utils.ts` — balance / confirmation helpers (abstracted as
  environment reads).

Conventions of the embedding:

* JavaScript floating-point numbers are modelled as exact rationals (`ℚ`);
  raw on-chain token amounts and lamports are integers.
* Every network read (parsed-transaction fetch, balance read, quote fetch,
  swap submission, confirmation polling) is a field of an environment
  structure: the handler is a pure function of its state, the environment and
  the message.  The bounded retry loops of the source (5 attempts, 2-second
  sleeps) are collapsed into the final outcome of the loop, which is all the
  state machine observes.
* The configuration constants (`CONFIG.*`, wallet addresses, program ids)
  come from `src/config.ts`, which the repository deliberately omits; they are
  therefore parameters of the model (a `Config` structure) rather than
  concrete values.  Literals written directly in the service sources
  (`0.01` tolerances, `0.00005` fee reserve, `?? 0.01` defaults) are kept as
  literals.
* Handlers additionally return a trace of abstract actions
  (mark-processed, ledger mutations, swap submission) in program order, used
  to state the idempotency / ordering claims.
-/

namespace CopyBot

/-- Per-mint running totals; the `TokenBalance` records of the services
(`\x7b bought: number; sold: number \x7d`). -/
structure Balances where
  bought : ℚ
  sold : ℚ
deriving DecidableEq, Repr

/-- A token-balance snapshot entry of a parsed transaction
(`preTokenBalances` / `postTokenBalances` items): raw integer amount plus
decimals, a mint and an owner. -/
structure TokBal where
  mint : String
  owner : String
  amount : ℕ
  decimals : ℕ
deriving DecidableEq, Repr

/-- The parts of a parsed Solana transaction that the two `processTransaction`
handlers read. -/
structure ParsedTx where
  accountKeys : List String
  instructionProgramIds : List String
  innerInstructionProgramIds : List (List String)
  logMessages : List String
  preBalances : List ℤ
  postBalances : List ℤ
  fee : ℤ
  preTokenBalances : List TokBal
  postTokenBalances : List TokBal
deriving DecidableEq, Repr

/-- Configuration constants; `src/config.ts` is not part of the repository, so
these stay abstract parameters of the model. -/
structure Config where
  targetWalletAddress : String
  solMint : String
  pumpSwapProgramId : String
  tradePercentage : ℚ
  slippage : ℚ
  minTradeAmount : Option ℚ
  raydiumTargetWallet : String
  raydiumProgramId : String
  raydiumCpmmProgramId : String
  jupiterProgramId : String
  raydiumTradePercentage : ℚ
  raydiumSlippage : ℚ
  minSwapAmount : Option ℚ
  pumpPortalSourceWallet : String
  pumpPortalTradePercentage : ℚ
  minTokenThreshold : ℚ
deriving Repr

/-- Substring test, modelling the JavaScript string `includes` method. -/
def strContains (hay need : String) : Bool :=
  hay.toList.tails.any (fun t => need.toList.isPrefixOf t)

/-- Mutable per-mint record map: the services lazily initialise
`bought = 0, sold = 0` for unseen mints, so a total function with that
default models `tokenBalances` / `sourceTokenBalances` exactly. -/
def setBal (f : String → Balances) (k : String) (v : Balances) : String → Balances :=
  fun m => if m = k then v else f m

/-- State owned by a venue service: the processed-signature set and the two
per-mint ledgers (controlled-side `tokenBalances`, source-side
`sourceTokenBalances`). -/
structure ServiceState where
  processed : List String
  tokenBalances : String → Balances
  sourceTokenBalances : String → Balances

/-- Write the source-side record of one mint. -/
def setSrc (st : ServiceState) (mint : String) (v : Balances) : ServiceState :=
  ⟨st.processed, st.tokenBalances, setBal st.sourceTokenBalances mint v⟩

/-- Write the controlled-side record of one mint. -/
def setTgt (st : ServiceState) (mint : String) (v : Balances) : ServiceState :=
  ⟨st.processed, setBal st.tokenBalances mint v, st.sourceTokenBalances⟩

/-- Add the signature to the processed set (`processedSignatures.add`). -/
def markSig (st : ServiceState) (signature : String) : ServiceState :=
  ⟨signature :: st.processed, st.tokenBalances, st.sourceTokenBalances⟩

/-- Abstract actions emitted in program order by a handler run: adding the
signature to the processed set, the four ledger mutations, and handing a swap
to the venue. -/
inductive Action where
  | mark
  | mutSrcBought
  | mutSrcSold
  | mutTgtBought
  | mutTgtSold
  | submit
deriving DecidableEq, Repr

/-- Number of venue swap submissions in a trace. -/
def submitCount (l : List Action) : ℕ :=
  l.countP (fun a => a == Action.submit)

/-- The trace contains no swap submission before the signature is marked
processed (vacuously true if neither occurs). -/
def markPrecedesSubmits : List Action → Bool
  | [] => true
  | Action.mark :: _ => true
  | Action.submit :: _ => false
  | _ :: rest => markPrecedesSubmits rest

/-- The trace contains no ledger mutation before the signature is marked
processed. -/
def markPrecedesMutations : List Action → Bool
  | [] => true
  | Action.mark :: _ => true
  | Action.submit :: rest => markPrecedesMutations rest
  | _ :: _ => false

/-- Inputs of the sell-sizing block (`service.ts` lines 408–445, duplicated at
533–570 and 634–671, and `raydium/index.ts` lines 365–402): the ledger reads
taken at sizing time plus the live-balance read. `sourceSoldAfter` is the
source-side sold total after the increment the handler performs first. -/
structure SellSizingInput where
  tokenAmount : ℚ
  sourceBoughtTotal : ℚ
  sourceSoldAfter : ℚ
  targetInitialBought : ℚ
  targetSold : ℚ
  realBalance : ℚ
  decimals : ℕ
  realAmountInUnits : ℤ
deriving DecidableEq, Repr

/-- Result of the sell-sizing block: rejection (any of the early returns) or
an accepted sell amount, its raw-unit amount, and whether the final-liquidation
(`isLastSale`) override fired. -/
inductive SellSizingResult where
  | reject
  | accept (sellAmount : ℚ) (sellAmountInUnits : ℤ) (isLastSale : Bool)
deriving DecidableEq, Repr

/-- Sell sizing of `PumpSwapService.processTransaction`
(`service.ts` 413–444): baseline guard, proportional amount, clamp to
net-bought-minus-sold and to the live balance, positivity guard, and the
final-liquidation override `|sellPercentage - remainingPercentage| < 0.01`
which replaces the amount with the live balance. -/
def pumpSellSizing (i : SellSizingInput) : SellSizingResult :=
  if i.sourceBoughtTotal ≤ 0 ∨ i.targetInitialBought ≤ 0 then .reject
  else
    let sellPercentage := i.tokenAmount / i.sourceBoughtTotal
    let targetRemaining := max 0 i.realBalance
    if targetRemaining ≤ 0 then .reject
    else
      let sellAmount0 := i.targetInitialBought * sellPercentage
      let totalSellable := i.targetInitialBought - i.targetSold
      let sellAmount1 := if sellAmount0 > totalSellable then totalSellable else sellAmount0
      let sellAmount2 := if sellAmount1 > targetRemaining then targetRemaining else sellAmount1
      if sellAmount2 ≤ 0 then .reject
      else
        let remainingPercentage := (i.sourceBoughtTotal - i.sourceSoldAfter) / i.sourceBoughtTotal
        if |sellPercentage - remainingPercentage| < 1/100 then
          .accept i.realBalance i.realAmountInUnits true
        else
          .accept sellAmount2 (Int.ceil (sellAmount2 * 10 ^ i.decimals)) false

/-- Sell sizing of `RaydiumService.processTransaction`
(`raydium/index.ts` 370–401); textually the same computation as the PumpSwap
copy. -/
def raySellSizing (i : SellSizingInput) : SellSizingResult :=
  if i.sourceBoughtTotal ≤ 0 ∨ i.targetInitialBought ≤ 0 then .reject
  else
    let sellPercentage := i.tokenAmount / i.sourceBoughtTotal
    let targetRemaining := max 0 i.realBalance
    if targetRemaining ≤ 0 then .reject
    else
      let sellAmount0 := i.targetInitialBought * sellPercentage
      let totalSellable := i.targetInitialBought - i.targetSold
      let sellAmount1 := if sellAmount0 > totalSellable then totalSellable else sellAmount0
      let sellAmount2 := if sellAmount1 > targetRemaining then targetRemaining else sellAmount1
      if sellAmount2 ≤ 0 then .reject
      else
        let remainingPercentage := (i.sourceBoughtTotal - i.sourceSoldAfter) / i.sourceBoughtTotal
        if |sellPercentage - remainingPercentage| < 1/100 then
          .accept i.realBalance i.realAmountInUnits true
        else
          .accept sellAmount2 (Int.ceil (sellAmount2 * 10 ^ i.decimals)) false

/-- Venue-membership decision of `PumpSwapService.processTransaction`
(`service.ts` 256–263): program id among the account keys, OR one of the
log markers, OR the push payload's pool hint. -/
def pumpIsVenueTx (cfg : Config) (tx : ParsedTx) (dataPool : Option String) : Bool :=
  let isPumpSwapProgram := tx.accountKeys.contains cfg.pumpSwapProgramId
  let hasPumpSwapLog := tx.logMessages.any fun l =>
    strContains l "Instruction: Buy" || strContains l "Instruction: Sell" || strContains l "pump-amm"
  let isPumpSwapFromData := dataPool == some "pump-amm"
  isPumpSwapProgram || hasPumpSwapLog || isPumpSwapFromData

/-- Venue-membership decision of `RaydiumService.processTransaction`
(`raydium/index.ts` 230–239): the program-id / inner-instruction / log-key /
payload-hint signals are OR-ed, but the whole disjunction is conjoined with
the presence of a log line containing `Swap`.  (The source also computes
`isJupiterTx` at line 231 but never uses it in the decision.) -/
def rayIsVenueTx (cfg : Config) (tx : ParsedTx) (dataPool : Option String) : Bool :=
  let isRaydiumTx := tx.instructionProgramIds.any fun p =>
    p == cfg.raydiumProgramId || p == cfg.raydiumCpmmProgramId
  let isRaydiumInnerTx := tx.innerInstructionProgramIds.any fun inner =>
    inner.any fun p => p == cfg.raydiumCpmmProgramId
  let hasSwapLog := tx.logMessages.any fun l => strContains l "Swap"
  let hasRaydiumProgram := tx.logMessages.any fun l =>
    strContains l "CAMMCzo5YL8w4VFF8KVHrK22GGUsp5VTaW7grrKgrWqK"
  let isRaydiumFromData := dataPool == some "raydium"
  (isRaydiumTx || isRaydiumInnerTx || hasRaydiumProgram || isRaydiumFromData) && hasSwapLog

/-- First-match scan for the input token (`service.ts` 288–299,
`raydium/index.ts` 269–280): the first pre-token-balance entry owned by the
watched wallet whose amount decreased; a missing post entry counts as 0. -/
def findInputToken (target : String) (pres posts : List TokBal) : Option (String × ℚ) :=
  match pres with
  | [] => none
  | b :: rest =>
    if b.owner == target then
      let postAmount : ℕ :=
        ((posts.find? (fun p => p.mint == b.mint && p.owner == target)).map TokBal.amount).getD 0
      if postAmount < b.amount then
        some (b.mint, ((b.amount - postAmount : ℕ) : ℚ) / 10 ^ b.decimals)
      else findInputToken target rest posts
    else findInputToken target rest posts

/-- First-match scan for the output token (`service.ts` 301–312,
`raydium/index.ts` 282–293): the first post-token-balance entry owned by the
watched wallet whose amount increased; a missing pre entry counts as 0. -/
def findOutputToken (target : String) (pres posts : List TokBal) : Option (String × ℚ) :=
  match posts with
  | [] => none
  | b :: rest =>
    if b.owner == target then
      let preAmount : ℕ :=
        ((pres.find? (fun p => p.mint == b.mint && p.owner == target)).map TokBal.amount).getD 0
      if preAmount < b.amount then
        some (b.mint, ((b.amount - preAmount : ℕ) : ℚ) / 10 ^ b.decimals)
      else findOutputToken target pres rest
    else findOutputToken target pres rest

/-- The trade facts both services derive from the balance deltas
(`service.ts` 272–327, `raydium/index.ts` 253–308). -/
structure TradeFacts where
  inputMint : String
  outputMint : String
  tokenAmount : ℚ
  solAmount : ℚ
  isBuy : Bool
  isSell : Bool
  mint : String
deriving DecidableEq, Repr

/-- Delta-based classification shared verbatim by the two services: native
balance delta at the watched wallet's index, first-match token deltas (the
output scan overwrites `tokenAmount` when it finds an increase), the native
amount when the native balance decreased and the input side is the settlement
mint, and the buy/sell direction flags. -/
def classifyDeltas (solMint target : String) (tx : ParsedTx) (walletIndex : ℕ) : TradeFacts :=
  let preSolBalance := tx.preBalances.getD walletIndex 0
  let postSolBalance := tx.postBalances.getD walletIndex 0
  let solDecreased := postSolBalance < preSolBalance
  let inRes := findInputToken target tx.preTokenBalances tx.postTokenBalances
  let inputMint := (inRes.map Prod.fst).getD solMint
  let amountAfterInput := (inRes.map Prod.snd).getD 0
  let outRes := findOutputToken target tx.preTokenBalances tx.postTokenBalances
  let outputMint := (outRes.map Prod.fst).getD solMint
  let tokenAmount := (outRes.map Prod.snd).getD amountAfterInput
  let solAmount := if solDecreased && (inputMint == solMint)
    then ((preSolBalance - postSolBalance - tx.fee : ℤ) : ℚ) / 1000000000 else 0
  let isBuy := inputMint == solMint && !(outputMint == solMint)
  let isSell := !(inputMint == solMint) && outputMint == solMint
  { inputMint := inputMint, outputMint := outputMint, tokenAmount := tokenAmount,
    solAmount := solAmount, isBuy := isBuy, isSell := isSell,
    mint := if isBuy then outputMint else inputMint }

/-- A `getTokenBalance` read: fractional balance, decimals and raw amount. -/
structure SellRead where
  balance : ℚ
  decimals : ℕ
  amount : ℤ
deriving DecidableEq, Repr

/-- Environment of one `PumpSwapService.processTransaction` run: every network
read the handler performs, in source order. -/
structure PumpEnv where
  tx : Option ParsedTx
  solBalance : ℚ
  poolFound : Bool
  quoteFound : Bool
  poolValid : Bool
  ensureOk : Bool
  buyOk : Bool
  buyRealBalance : ℚ
  sellRead : SellRead
  sellRead2 : SellRead
  sellSendOk : Bool
  sellConfirmed : Bool

/-- Buy execution on the validated-pool path (`service.ts` 385–403):
source-side bought increment, account setup, SDK buy, then the controlled-side
bought total is ASSIGNED the post-buy live balance (or the proportional
fallback when the read comes back 0). -/
def pumpBuyPool (cfg : Config) (st : ServiceState) (env : PumpEnv)
    (mint : String) (tokenAmount : ℚ) : ServiceState × List Action :=
  let sb := st.sourceTokenBalances mint
  let st1 := setSrc st mint ⟨sb.bought + tokenAmount, sb.sold⟩
  if !env.ensureOk then (st1, [Action.mutSrcBought])
  else if !env.buyOk then (st1, [Action.mutSrcBought, Action.submit])
  else
    let tb := st1.tokenBalances mint
    let newBought := if env.buyRealBalance > 0 then env.buyRealBalance
      else tokenAmount * cfg.tradePercentage
    (setTgt st1 mint ⟨newBought, tb.sold⟩,
     [Action.mutSrcBought, Action.submit, Action.mutTgtBought])

/-- Buy execution on the Jupiter fallback paths (`service.ts` 514–528 and
615–629): same shape, the swap goes through `executeSwap` and a null
transaction id leaves the controlled side untouched. -/
def pumpBuyJupiter (cfg : Config) (st : ServiceState) (env : PumpEnv)
    (mint : String) (tokenAmount : ℚ) : ServiceState × List Action :=
  let sb := st.sourceTokenBalances mint
  let st1 := setSrc st mint ⟨sb.bought + tokenAmount, sb.sold⟩
  if !env.buyOk then (st1, [Action.mutSrcBought, Action.submit])
  else
    let tb := st1.tokenBalances mint
    let newBought := if env.buyRealBalance > 0 then env.buyRealBalance
      else tokenAmount * cfg.tradePercentage
    (setTgt st1 mint ⟨newBought, tb.sold⟩,
     [Action.mutSrcBought, Action.submit, Action.mutTgtBought])

/-- Execution tail of the validated-pool sell (`service.ts` 446–510): WSOL
setup, transaction send, bounded confirmation polling, and only after a
confirmed status the controlled-side sold increment. -/
def pumpSellPoolExec (env : PumpEnv) (st1 : ServiceState) (mint : String) :
    SellSizingResult → ServiceState × List Action
  | .reject => (st1, [Action.mutSrcSold])
  | .accept sellAmount _ _ =>
    if !env.ensureOk then (st1, [Action.mutSrcSold])
    else if !env.sellSendOk then (st1, [Action.mutSrcSold, Action.submit])
    else if !env.sellConfirmed then (st1, [Action.mutSrcSold, Action.submit])
    else
      let tb := st1.tokenBalances mint
      (setTgt st1 mint ⟨tb.bought, tb.sold + sellAmount⟩,
       [Action.mutSrcSold, Action.submit, Action.mutTgtSold])

/-- Sell handling on the validated-pool path (`service.ts` 404–510):
source-side sold increment first, then sizing, then the execution tail. -/
def pumpSellPool (cfg : Config) (st : ServiceState) (env : PumpEnv)
    (mint : String) (tokenAmount : ℚ) : ServiceState × List Action :=
  let sb := st.sourceTokenBalances mint
  let st1 := setSrc st mint ⟨sb.bought, sb.sold + tokenAmount⟩
  let i : SellSizingInput := {
    tokenAmount := tokenAmount,
    sourceBoughtTotal := (st1.sourceTokenBalances mint).bought,
    sourceSoldAfter := (st1.sourceTokenBalances mint).sold,
    targetInitialBought := (st1.tokenBalances mint).bought,
    targetSold := (st1.tokenBalances mint).sold,
    realBalance := env.sellRead.balance,
    decimals := env.sellRead.decimals,
    realAmountInUnits := env.sellRead.amount }
  pumpSellPoolExec env st1 mint (pumpSellSizing i)

/-- Execution tail of the Jupiter-path sell (`service.ts` 572–607 and
673–708): the swap goes through `executeSwap` (a null transaction id aborts),
then the confirmation polling, then the controlled-side sold increment. -/
def pumpSellJupiterExec (env : PumpEnv) (st1 : ServiceState) (mint : String) :
    SellSizingResult → ServiceState × List Action
  | .reject => (st1, [Action.mutSrcSold])
  | .accept sellAmount _ _ =>
    if !env.sellSendOk then (st1, [Action.mutSrcSold, Action.submit])
    else if !env.sellConfirmed then (st1, [Action.mutSrcSold, Action.submit])
    else
      let tb := st1.tokenBalances mint
      (setTgt st1 mint ⟨tb.bought, tb.sold + sellAmount⟩,
       [Action.mutSrcSold, Action.submit, Action.mutTgtSold])

/-- Sell handling on the Jupiter fallback paths (`service.ts` 529–607 and
630–708): as on the pool path, except that the last-sale raw amount comes from
a second balance read, the swap goes through `executeSwap`, and there is no
WSOL setup step. -/
def pumpSellJupiter (cfg : Config) (st : ServiceState) (env : PumpEnv)
    (mint : String) (tokenAmount : ℚ) : ServiceState × List Action :=
  let sb := st.sourceTokenBalances mint
  let st1 := setSrc st mint ⟨sb.bought, sb.sold + tokenAmount⟩
  let i : SellSizingInput := {
    tokenAmount := tokenAmount,
    sourceBoughtTotal := (st1.sourceTokenBalances mint).bought,
    sourceSoldAfter := (st1.sourceTokenBalances mint).sold,
    targetInitialBought := (st1.tokenBalances mint).bought,
    targetSold := (st1.tokenBalances mint).sold,
    realBalance := env.sellRead.balance,
    decimals := env.sellRead.decimals,
    realAmountInUnits := env.sellRead2.amount }
  pumpSellJupiterExec env st1 mint (pumpSellSizing i)

/-- Post-classification stage of `PumpSwapService.processTransaction`
(`service.ts` 319–713): settlement-only guard, native-balance guard, quote
guard, minimum-trade guard for buys, then the pool/Jupiter execution triage.
(The `isBuy && tradeAmountSolRounded === undefined` guard of line 369 is
statically dead — the value is always assigned on the buy path — and is not
modelled.) -/
def pumpDispatch (cfg : Config) (st1 : ServiceState) (env : PumpEnv)
    (f : TradeFacts) : ServiceState × List Action :=
  if f.inputMint == cfg.solMint && f.outputMint == cfg.solMint then (st1, [])
  else
    let requiredSol : ℚ :=
      if f.isBuy then f.solAmount * cfg.tradePercentage * (1 + cfg.slippage) + 5/100000
      else 5/100000
    if env.solBalance < requiredSol then (st1, [])
    else if !env.quoteFound then (st1, [])
    else if f.isBuy &&
        ((Int.floor (f.solAmount * cfg.tradePercentage * 1000000000) : ℚ) / 1000000000
          < cfg.minTradeAmount.getD (1/100)) then (st1, [])
    else if env.poolFound && env.poolValid then
      if f.isBuy then pumpBuyPool cfg st1 env f.mint f.tokenAmount
      else if f.isSell then pumpSellPool cfg st1 env f.mint f.tokenAmount
      else (st1, [])
    else if env.poolFound && !env.poolValid then
      if f.isBuy then pumpBuyJupiter cfg st1 env f.mint f.tokenAmount
      else if f.isSell then pumpSellJupiter cfg st1 env f.mint f.tokenAmount
      else (st1, [])
    else
      if f.isBuy then pumpBuyJupiter cfg st1 env f.mint f.tokenAmount
      else if f.isSell then pumpSellJupiter cfg st1 env f.mint f.tokenAmount
      else (st1, [])

/-- `PumpSwapService.processTransaction` (`service.ts` 225–717): idempotency
guard, transaction fetch, fee-payer check, venue check, mark-processed,
delta classification, then the post-classification dispatch. -/
def pumpProcessTransaction (cfg : Config) (st : ServiceState) (env : PumpEnv)
    (signature : String) (dataPool : Option String) : ServiceState × List Action :=
  if st.processed.contains signature then (st, [])
  else
    match env.tx with
    | none => (st, [])
    | some tx =>
      if ¬ (tx.accountKeys.headD "" = cfg.targetWalletAddress) then (st, [])
      else if !(pumpIsVenueTx cfg tx dataPool) then (st, [])
      else
        let st1 : ServiceState := markSig st signature
        match tx.accountKeys.findIdx? (fun k => k == cfg.targetWalletAddress) with
        | none => (st1, [Action.mark])
        | some walletIndex =>
          let f := classifyDeltas cfg.solMint cfg.targetWalletAddress tx walletIndex
          let r := pumpDispatch cfg st1 env f
          (r.1, Action.mark :: r.2)

/-- Environment of one `RaydiumService.processTransaction` run. -/
structure RayEnv where
  tx : Option ParsedTx
  solBalance : ℚ
  quoteFound : Bool
  sellQuoteFound : Bool
  swapOk : Bool
  buyRealBalance : ℚ
  sellRead : SellRead

/-- Raydium buy execution (`raydium/index.ts` 346–360): source-side bought
increment (after the quote was obtained), Jupiter swap, then the
controlled-side bought total is ASSIGNED the post-buy live balance (or the
proportional fallback when the read comes back 0). -/
def rayBuy (cfg : Config) (st : ServiceState) (env : RayEnv)
    (mint : String) (tokenAmount : ℚ) : ServiceState × List Action :=
  let sb := st.sourceTokenBalances mint
  let st1 := setSrc st mint ⟨sb.bought + tokenAmount, sb.sold⟩
  if !env.swapOk then (st1, [Action.mutSrcBought, Action.submit])
  else
    let tb := st1.tokenBalances mint
    let newBought := if env.buyRealBalance > 0 then env.buyRealBalance
      else tokenAmount * cfg.raydiumTradePercentage
    (setTgt st1 mint ⟨newBought, tb.sold⟩,
     [Action.mutSrcBought, Action.submit, Action.mutTgtBought])

/-- Execution tail of the Raydium sell (`raydium/index.ts` 404–423): the
quote fetch, the Jupiter swap, and on a non-null transaction id the
controlled-side sold increment. -/
def raySellExec (env : RayEnv) (st1 : ServiceState) (mint : String) :
    SellSizingResult → ServiceState × List Action
  | .reject => (st1, [Action.mutSrcSold])
  | .accept sellAmount _ _ =>
    if !env.sellQuoteFound then (st1, [Action.mutSrcSold])
    else if !env.swapOk then (st1, [Action.mutSrcSold, Action.submit])
    else
      let tb := st1.tokenBalances mint
      (setTgt st1 mint ⟨tb.bought, tb.sold + sellAmount⟩,
       [Action.mutSrcSold, Action.submit, Action.mutTgtSold])

/-- Raydium sell handling (`raydium/index.ts` 361–423): source-side sold
increment first, then sizing, then the execution tail. -/
def raySell (cfg : Config) (st : ServiceState) (env : RayEnv)
    (mint : String) (tokenAmount : ℚ) : ServiceState × List Action :=
  let sb := st.sourceTokenBalances mint
  let st1 := setSrc st mint ⟨sb.bought, sb.sold + tokenAmount⟩
  let i : SellSizingInput := {
    tokenAmount := tokenAmount,
    sourceBoughtTotal := (st1.sourceTokenBalances mint).bought,
    sourceSoldAfter := (st1.sourceTokenBalances mint).sold,
    targetInitialBought := (st1.tokenBalances mint).bought,
    targetSold := (st1.tokenBalances mint).sold,
    realBalance := env.sellRead.balance,
    decimals := env.sellRead.decimals,
    realAmountInUnits := env.sellRead.amount }
  raySellExec env st1 mint (raySellSizing i)

/-- Post-classification stage of `RaydiumService.processTransaction`
(`raydium/index.ts` 300–423): settlement-only guard, native-balance guard,
then the buy guards (minimum swap amount, quote) and the buy/sell
execution. -/
def rayDispatch (cfg : Config) (st1 : ServiceState) (env : RayEnv)
    (f : TradeFacts) : ServiceState × List Action :=
  if f.inputMint == cfg.solMint && f.outputMint == cfg.solMint then (st1, [])
  else
    let requiredSol : ℚ :=
      if f.isBuy then
        f.solAmount * cfg.raydiumTradePercentage * (1 + cfg.raydiumSlippage) + 5/100000
      else 5/100000
    if env.solBalance < requiredSol then (st1, [])
    else if f.isBuy then
      if (Int.floor (f.solAmount * cfg.raydiumTradePercentage * 1000000000) : ℚ)
          / 1000000000 < cfg.minSwapAmount.getD (1/100) then (st1, [])
      else if !env.quoteFound then (st1, [])
      else rayBuy cfg st1 env f.mint f.tokenAmount
    else if f.isSell then raySell cfg st1 env f.mint f.tokenAmount
    else (st1, [])

/-- `RaydiumService.processTransaction` (`raydium/index.ts` 207–427):
idempotency guard, transaction fetch, venue check, fee-payer check,
mark-processed, delta classification, then the post-classification
dispatch. -/
def rayProcessTransaction (cfg : Config) (st : ServiceState) (env : RayEnv)
    (signature : String) (dataPool : Option String) : ServiceState × List Action :=
  if st.processed.contains signature then (st, [])
  else
    match env.tx with
    | none => (st, [])
    | some tx =>
      if !(rayIsVenueTx cfg tx dataPool) then (st, [])
      else if ¬ (tx.accountKeys.headD "" = cfg.raydiumTargetWallet) then (st, [])
      else
        let st1 : ServiceState := markSig st signature
        match tx.accountKeys.findIdx? (fun k => k == cfg.raydiumTargetWallet) with
        | none => (st1, [Action.mark])
        | some walletIndex =>
          let f := classifyDeltas cfg.solMint cfg.raydiumTargetWallet tx walletIndex
          let r := rayDispatch cfg st1 env f
          (r.1, Action.mark :: r.2)

/-- Environment of one PumpPortal WebSocket message (`service.ts` 880–957):
the balance reads and the swap outcome. -/
structure PortalEnv where
  realBalance : ℚ
  buyRealBalance : ℚ
  swapOk : Bool
deriving DecidableEq, Repr

/-- The PumpPortal handler `handleWebSocketMessage` (`service.ts` 880–957):
idempotency guard, trader check, source-side update, swap execution,
controlled-side update on success — and the signature is added to the
processed set only at the END of the handler (line 953), after execution; an
early-rejected sell (line 931) never marks it at all.  The JS expression
`sourceSold / sourceInitialBought || 0` yields Infinity when the bought total
is 0 and the sold total is not (which then satisfies the `>= 1.0` branch);
that case is folded into the sell-all condition below. -/
def portalHandleMessage (cfg : Config) (st : ServiceState) (env : PortalEnv)
    (signature trader txType mint : String) (tokenAmount : ℚ) :
    ServiceState × List Action :=
  if st.processed.contains signature then (st, [])
  else if ¬ (trader = cfg.pumpPortalSourceWallet) then (st, [])
  else
    if txType == "buy" then
      let sb := st.sourceTokenBalances mint
      let st1 := setSrc st mint ⟨sb.bought + tokenAmount, sb.sold⟩
      if env.swapOk then
        let tb := st1.tokenBalances mint
        let newBought := if env.buyRealBalance > 0 then env.buyRealBalance
          else tokenAmount * cfg.pumpPortalTradePercentage
        let st2 := setTgt st1 mint ⟨newBought, tb.sold⟩
        (markSig st2 signature,
         [Action.mutSrcBought, Action.submit, Action.mutTgtBought, Action.mark])
      else
        (markSig st1 signature,
         [Action.mutSrcBought, Action.submit, Action.mark])
    else if txType == "sell" then
      let sb := st.sourceTokenBalances mint
      let st1 := setSrc st mint ⟨sb.bought, sb.sold + tokenAmount⟩
      let sourceInitialBought := (st1.sourceTokenBalances mint).bought
      let sourceSold := (st1.sourceTokenBalances mint).sold
      let targetSold := (st1.tokenBalances mint).sold
      let targetRemaining := env.realBalance - targetSold
      if targetRemaining ≤ cfg.minTokenThreshold then (st1, [Action.mutSrcSold])
      else
        let targetTokenAmount :=
          if 1 ≤ sourceSold / sourceInitialBought ∨
              (sourceInitialBought = 0 ∧ sourceSold ≠ 0) then targetRemaining
          else targetRemaining * (sourceSold / sourceInitialBought) * cfg.pumpPortalTradePercentage
        if env.swapOk then
          let tb := st1.tokenBalances mint
          let st2 := setTgt st1 mint ⟨tb.bought, tb.sold + targetTokenAmount⟩
          (markSig st2 signature,
           [Action.mutSrcSold, Action.submit, Action.mutTgtSold, Action.mark])
        else
          (markSig st1 signature,
           [Action.mutSrcSold, Action.submit, Action.mark])
    else
      (markSig st signature, [Action.mark])

/-- Zero ledger map (the lazily-initialised default records). -/
def zeroBal : String → Balances := fun _ => ⟨0, 0⟩

/-- Sample configuration for concrete evaluations (the actual values live in
the omitted `config.ts`; the claims hold for every configuration). -/
def sampleCfg : Config :=
  { targetWalletAddress := "T",
    solMint := "SOL",
    pumpSwapProgramId := "PUMP",
    tradePercentage := 1/10,
    slippage := 0,
    minTradeAmount := none,
    raydiumTargetWallet := "T",
    raydiumProgramId := "RAY",
    raydiumCpmmProgramId := "CPMM",
    jupiterProgramId := "JUP",
    raydiumTradePercentage := 1/10,
    raydiumSlippage := 0,
    minSwapAmount := none,
    pumpPortalSourceWallet := "S",
    pumpPortalTradePercentage := 1/2,
    minTokenThreshold := 0 }

/-- An idle balance read. -/
def idleRead : SellRead := ⟨0, 6, 0⟩

/-- An environment in which every read fails or is empty. -/
def idleEnv : PumpEnv :=
  { tx := none, solBalance := 0, poolFound := false, quoteFound := false,
    poolValid := false, ensureOk := false, buyOk := false, buyRealBalance := 0,
    sellRead := idleRead, sellRead2 := idleRead, sellSendOk := false,
    sellConfirmed := false }

/-- An idle Raydium environment. -/
def idleRayEnv : RayEnv :=
  { tx := none, solBalance := 0, quoteFound := false, sellQuoteFound := false,
    swapOk := false, buyRealBalance := 0, sellRead := idleRead }

/-- A state in which signature `s1` is already processed. -/
def processedState : ServiceState := ⟨["s1"], zeroBal, zeroBal⟩

/-- State for the PumpPortal counterexample: the source wallet has bought 100
units of mint `M` and sold none. -/
def c6State : ServiceState := ⟨[], zeroBal, setBal zeroBal "M" ⟨100, 0⟩⟩

/-- Environment for the PumpPortal counterexample: the controlled wallet holds
50 units and the swap succeeds. -/
def c6Env : PortalEnv := ⟨50, 0, true⟩

/-- A transaction carrying the Raydium program id among its instructions but
no log output at all (in particular no `Swap` marker). -/
def c4Tx : ParsedTx :=
  { accountKeys := ["T"],
    instructionProgramIds := ["RAY"],
    innerInstructionProgramIds := [],
    logMessages := [],
    preBalances := [],
    postBalances := [],
    fee := 0,
    preTokenBalances := [],
    postTokenBalances := [] }

/-- The empty service state. -/
def emptyState : ServiceState := ⟨[], zeroBal, zeroBal⟩

/-- Environment delivering `c4Tx` to the Raydium service. -/
def c4Env : RayEnv :=
  { tx := some c4Tx, solBalance := 1, quoteFound := true, sellQuoteFound := true,
    swapOk := true, buyRealBalance := 0, sellRead := idleRead }

/-- A transaction in which the watched wallet sells one unit of mint `M`
through the PumpSwap program (program id among the account keys, no logs). -/
def sellTx : ParsedTx :=
  { accountKeys := ["T", "PUMP"],
    instructionProgramIds := [],
    innerInstructionProgramIds := [],
    logMessages := [],
    preBalances := [100],
    postBalances := [200],
    fee := 10,
    preTokenBalances := [⟨"M", "T", 1000000, 6⟩],
    postTokenBalances := [⟨"M", "T", 0, 6⟩] }

/-- The same sell observed by the Raydium service: Raydium program id among
the instructions and a `Swap` log line. -/
def raySellTx : ParsedTx :=
  { accountKeys := ["T"],
    instructionProgramIds := ["RAY"],
    innerInstructionProgramIds := [],
    logMessages := ["Swap"],
    preBalances := [100],
    postBalances := [200],
    fee := 10,
    preTokenBalances := [⟨"M", "T", 1000000, 6⟩],
    postTokenBalances := [⟨"M", "T", 0, 6⟩] }

/-- Controlled-side ledger for the C7/C8 witnesses: the controlled wallet has
bought 5 units of `M`; the source has bought 10. -/
def pumpSellState : ServiceState :=
  ⟨[], setBal zeroBal "M" ⟨5, 0⟩, setBal zeroBal "M" ⟨10, 0⟩⟩

/-- Environment for a PumpSwap mirrored sell whose confirmation polling never
succeeds. -/
def pumpSellEnv : PumpEnv :=
  { tx := some sellTx, solBalance := 1, poolFound := true, quoteFound := true,
    poolValid := true, ensureOk := true, buyOk := true, buyRealBalance := 0,
    sellRead := ⟨5, 6, 5000000⟩, sellRead2 := ⟨5, 6, 5000000⟩,
    sellSendOk := true, sellConfirmed := false }

/-- The unconfirmed-sell environment with the pre-sizing quote fetch
failing. -/
def c8Env : PumpEnv := { pumpSellEnv with quoteFound := false }

/-- Raydium environment for the concrete mirrored sell. -/
def rayC8Env : RayEnv :=
  { tx := some raySellTx, solBalance := 1, quoteFound := true,
    sellQuoteFound := false, swapOk := true, sellRead := ⟨5, 6, 5000000⟩,
    buyRealBalance := 0 }

/-- A transaction in which the watched wallet buys one unit of mint `M` for
one SOL through the PumpSwap program. -/
def buyTx : ParsedTx :=
  { accountKeys := ["T", "PUMP"],
    instructionProgramIds := [],
    innerInstructionProgramIds := [],
    logMessages := [],
    preBalances := [1000005000],
    postBalances := [0],
    fee := 5000,
    preTokenBalances := [],
    postTokenBalances := [⟨"M", "T", 1000000, 6⟩] }

/-- Environment delivering `buyTx` with a given post-buy live balance read. -/
def buyEnv (b : ℚ) : PumpEnv :=
  { tx := some buyTx, solBalance := 2, poolFound := true, quoteFound := true,
    poolValid := true, ensureOk := true, buyOk := true, buyRealBalance := b,
    sellRead := idleRead, sellRead2 := idleRead, sellSendOk := true,
    sellConfirmed := true }

/-- State after a first mirrored buy whose post-buy balance read returned
100. -/
def c3Run1 : ServiceState :=
  (pumpProcessTransaction sampleCfg emptyState (buyEnv 100) "b1" none).1

/-- State after a second mirrored buy of the same token whose post-buy
balance read returned 50. -/
def c3Run2 : ServiceState :=
  (pumpProcessTransaction sampleCfg c3Run1 (buyEnv 50) "b2" none).1

theorem raySellSizing_eq_pump (i : SellSizingInput) : raySellSizing i = pumpSellSizing i := rfl

/-! ### Properties of the sell-sizing block -/

/-- Every accepted sell amount is strictly positive: the positivity guard
covers the clamped amount, and the override only fires after the live-balance
guard ensured a positive balance. -/
theorem pumpSellSizing_accept_pos {i : SellSizingInput} {a : ℚ} {u : ℤ} {b : Bool}
    (h : pumpSellSizing i = .accept a u b) : 0 < a := by
  simp only [pumpSellSizing] at h
  split_ifs at h with h1 h2 h3 h4 h5 h6 h7 h8
  all_goals try exact SellSizingResult.noConfusion h
  all_goals
    have hrb : 0 < i.realBalance := by
      have h0 := lt_of_not_le h2
      rcases lt_max_iff.mp h0 with h' | h'
      · exact absurd h' (lt_irrefl 0)
      · exact h'
  all_goals simp only [max_eq_right hrb.le] at *
  all_goals injection h with ha hu hb2
  all_goals subst ha
  all_goals simp only [not_le, gt_iff_lt, not_lt] at *
  all_goals linarith

/-- When the final-liquidation override does not fire, the accepted amount is
below both clamps. -/
theorem pumpSellSizing_accept_false_le {i : SellSizingInput} {a : ℚ} {u : ℤ}
    (h : pumpSellSizing i = .accept a u false) :
    a ≤ min (i.targetInitialBought - i.targetSold) i.realBalance := by
  simp only [pumpSellSizing] at h
  split_ifs at h with h1 h2 h3 h4 h5 h6 h7 h8
  all_goals try exact SellSizingResult.noConfusion h
  all_goals
    have hrb : 0 < i.realBalance := by
      have h0 := lt_of_not_le h2
      rcases lt_max_iff.mp h0 with h' | h'
      · exact absurd h' (lt_irrefl 0)
      · exact h'
  all_goals simp only [max_eq_right hrb.le] at *
  all_goals injection h with ha hu hb2
  all_goals try exact Bool.noConfusion hb2
  all_goals subst ha
  all_goals simp only [not_le, gt_iff_lt, not_lt] at *
  all_goals refine le_min ?_ ?_ <;> linarith

/-- When the override fires, the accepted amount is exactly the live balance
and the raw amount is exactly the raw live-balance read. -/
theorem pumpSellSizing_accept_true_eq {i : SellSizingInput} {a : ℚ} {u : ℤ}
    (h : pumpSellSizing i = .accept a u true) :
    a = i.realBalance ∧ u = i.realAmountInUnits := by
  simp only [pumpSellSizing] at h
  split_ifs at h with h1 h2 h3 h4 h5 h6 h7 h8
  all_goals try exact SellSizingResult.noConfusion h
  all_goals injection h with ha hu hb2
  all_goals try exact Bool.noConfusion hb2
  all_goals exact ⟨ha.symm, hu.symm⟩

/-- The override flag of an accepted sizing is exactly the source's
`isLastSale` condition: the distance between this event's fraction of the
lifetime buy and the remaining unsold fraction is below 0.01. -/
theorem pumpSellSizing_lastSale_iff {i : SellSizingInput} {a : ℚ} {u : ℤ} {b : Bool}
    (h : pumpSellSizing i = .accept a u b) :
    (b = true ↔
      |i.tokenAmount / i.sourceBoughtTotal -
        (i.sourceBoughtTotal - i.sourceSoldAfter) / i.sourceBoughtTotal| < 1/100) := by
  simp only [pumpSellSizing] at h
  split_ifs at h with h1 h2 h3 h4 h5 h6 h7 h8
  all_goals try exact SellSizingResult.noConfusion h
  all_goals injection h with ha hu hb2
  all_goals subst hb2
  all_goals constructor
  all_goals intro hx
  all_goals first
    | assumption
    | rfl
    | exact Bool.noConfusion hx
    | exact absurd hx (by assumption)

/-- When the final-liquidation override does not fire, the submitted raw
amount is the ceiling of the accepted amount scaled by the decimals. -/
theorem pumpSellSizing_accept_false_units {i : SellSizingInput} {a : ℚ} {u : ℤ}
    (h : pumpSellSizing i = .accept a u false) :
    u = Int.ceil (a * 10 ^ i.decimals) := by
  simp only [pumpSellSizing] at h
  split_ifs at h with h1 h2 h3 h4 h5 h6 h7 h8
  all_goals try exact SellSizingResult.noConfusion h
  all_goals injection h with ha hu hb2
  all_goals try exact Bool.noConfusion hb2
  all_goals subst ha
  all_goals exact hu.symm

/-! ### Claims C1, C2, C9: the sizing clamp, the final-liquidation override,
and the raw-unit rounding -/

/-- Claim C1, counterexample.  The claim states that for EVERY classified sell
event the computed and submitted sell amount is at most
`min(controlledBought - controlledSold, liveBalance)`.  On the input below the
final-liquidation override fires and the handler computes the full live
balance 10, which exceeds `min(10 - 8, 10) = 2`. -/
theorem C1_counterexample :
    pumpSellSizing
        { tokenAmount := 50, sourceBoughtTotal := 100, sourceSoldAfter := 50,
          targetInitialBought := 10, targetSold := 8, realBalance := 10,
          decimals := 6, realAmountInUnits := 10000000 } =
      SellSizingResult.accept 10 10000000 true ∧
    ¬ ((10 : ℚ) ≤ min ((10 : ℚ) - 8) 10) := by
  constructor
  · norm_num [pumpSellSizing, abs_lt]
  · norm_num

/-- Claim C1, amended.  For every sell event the handler does NOT treat as a
final liquidation, the computed sell amount is at most
`min(controlledBought - controlledSold, liveBalance)`; when the
final-liquidation override fires, the computed amount is exactly the live
balance (which can exceed `controlledBought - controlledSold`).  This holds
for the sizing blocks of both venue services. -/
theorem C1_theorem :
    (∀ i : SellSizingInput, ∀ a : ℚ, ∀ u : ℤ,
      pumpSellSizing i = .accept a u false →
        a ≤ min (i.targetInitialBought - i.targetSold) i.realBalance) ∧
    (∀ i : SellSizingInput, ∀ a : ℚ, ∀ u : ℤ,
      raySellSizing i = .accept a u false →
        a ≤ min (i.targetInitialBought - i.targetSold) i.realBalance) ∧
    (∀ i : SellSizingInput, ∀ a : ℚ, ∀ u : ℤ,
      pumpSellSizing i = .accept a u true → a = i.realBalance) ∧
    (∀ i : SellSizingInput, ∀ a : ℚ, ∀ u : ℤ,
      raySellSizing i = .accept a u true → a = i.realBalance) := by
  refine ⟨fun i a u h => pumpSellSizing_accept_false_le h,
          fun i a u h => pumpSellSizing_accept_false_le ((raySellSizing_eq_pump i) ▸ h),
          fun i a u h => (pumpSellSizing_accept_true_eq h).1,
          fun i a u h => (pumpSellSizing_accept_true_eq ((raySellSizing_eq_pump i) ▸ h)).1⟩

/-- Claim C1, witness: the amended clamp evaluated on a concrete accepted
non-final sell of both services. -/
theorem C1_witness :
    ((5 : ℚ) ≤ min ((50 : ℚ) - 0) 20) ∧ ((5 : ℚ) ≤ min ((50 : ℚ) - 0) 20) := by
  constructor
  · exact C1_theorem.1
      { tokenAmount := 10, sourceBoughtTotal := 100, sourceSoldAfter := 10,
        targetInitialBought := 50, targetSold := 0, realBalance := 20,
        decimals := 2, realAmountInUnits := 2000 } 5 500
      (by norm_num [pumpSellSizing, abs_lt])
  · exact C1_theorem.2.1
      { tokenAmount := 10, sourceBoughtTotal := 100, sourceSoldAfter := 10,
        targetInitialBought := 50, targetSold := 0, realBalance := 20,
        decimals := 2, realAmountInUnits := 2000 } 5 500
      (by norm_num [raySellSizing, abs_lt])

/-- Claim C2, counterexample.  The claim states the live-balance override is
applied exactly when `sourceSold / sourceBought` after the event is within
0.01 of 1.0.  On the input below that ratio is `60/100 = 0.6` — not within
0.01 of 1.0 — yet the override fires (the handler compares this event's sell
fraction with the remaining unsold fraction, not the sold ratio with 1.0) and
the computed amount is the full live balance 7. -/
theorem C2_counterexample :
    pumpSellSizing
        { tokenAmount := 40, sourceBoughtTotal := 100, sourceSoldAfter := 60,
          targetInitialBought := 10, targetSold := 0, realBalance := 7,
          decimals := 6, realAmountInUnits := 7000000 } =
      SellSizingResult.accept 7 7000000 true ∧
    ¬ (|(60 : ℚ) / 100 - 1| < 1/100) := by
  constructor
  · norm_num [pumpSellSizing, abs_lt]
  · norm_num [abs_lt]

/-- Claim C2, amended.  For every accepted sell, the live-balance override is
applied if and only if
`|sellFraction - (sourceBought - sourceSoldAfter) / sourceBought| < 0.01`
(the event's fraction of the lifetime buy is within 0.01 of the remaining
unsold fraction), and when it is applied the computed amount equals the live
balance exactly.  This holds for the sizing blocks of both venue services. -/
theorem C2_theorem :
    (∀ i : SellSizingInput, ∀ a : ℚ, ∀ u : ℤ, ∀ b : Bool,
      pumpSellSizing i = .accept a u b →
        ((b = true ↔
          |i.tokenAmount / i.sourceBoughtTotal -
            (i.sourceBoughtTotal - i.sourceSoldAfter) / i.sourceBoughtTotal| < 1/100) ∧
         (b = true → a = i.realBalance))) ∧
    (∀ i : SellSizingInput, ∀ a : ℚ, ∀ u : ℤ, ∀ b : Bool,
      raySellSizing i = .accept a u b →
        ((b = true ↔
          |i.tokenAmount / i.sourceBoughtTotal -
            (i.sourceBoughtTotal - i.sourceSoldAfter) / i.sourceBoughtTotal| < 1/100) ∧
         (b = true → a = i.realBalance))) := by
  constructor
  · intro i a u b h
    refine ⟨pumpSellSizing_lastSale_iff h, fun hb => ?_⟩
    subst hb
    exact (pumpSellSizing_accept_true_eq h).1
  · intro i a u b h
    rw [raySellSizing_eq_pump i] at h
    refine ⟨pumpSellSizing_lastSale_iff h, fun hb => ?_⟩
    subst hb
    exact (pumpSellSizing_accept_true_eq h).1

/-- Claim C2, witness: on a concrete final-liquidation sell the override
condition holds and the computed amount is the live balance, in both
services. -/
theorem C2_witness :
    ((true = true ↔
        |(50 : ℚ) / 100 - ((100 : ℚ) - 50) / 100| < 1/100) ∧
      (true = true → (10 : ℚ) = 10)) ∧
    ((true = true ↔
        |(50 : ℚ) / 100 - ((100 : ℚ) - 50) / 100| < 1/100) ∧
      (true = true → (10 : ℚ) = 10)) := by
  constructor
  · exact C2_theorem.1
      { tokenAmount := 50, sourceBoughtTotal := 100, sourceSoldAfter := 50,
        targetInitialBought := 10, targetSold := 8, realBalance := 10,
        decimals := 6, realAmountInUnits := 10000000 } 10 10000000 true
      (by norm_num [pumpSellSizing, abs_lt])
  · exact C2_theorem.2
      { tokenAmount := 50, sourceBoughtTotal := 100, sourceSoldAfter := 50,
        targetInitialBought := 10, targetSold := 8, realBalance := 10,
        decimals := 6, realAmountInUnits := 10000000 } 10 10000000 true
      (by norm_num [raySellSizing, abs_lt])

/-- Claim C9.  For every sell that is not a final liquidation, the raw-unit
amount submitted to the venue is `ceil(sellAmount * 10 ^ decimals)`; it is
never below the scaled clamped amount and exceeds it by strictly less than one
base unit.  This holds for the sizing blocks of both venue services. -/
theorem C9_theorem :
    (∀ i : SellSizingInput, ∀ a : ℚ, ∀ u : ℤ,
      pumpSellSizing i = .accept a u false →
        u = Int.ceil (a * 10 ^ i.decimals) ∧
        a * 10 ^ i.decimals ≤ (u : ℚ) ∧ (u : ℚ) < a * 10 ^ i.decimals + 1) ∧
    (∀ i : SellSizingInput, ∀ a : ℚ, ∀ u : ℤ,
      raySellSizing i = .accept a u false →
        u = Int.ceil (a * 10 ^ i.decimals) ∧
        a * 10 ^ i.decimals ≤ (u : ℚ) ∧ (u : ℚ) < a * 10 ^ i.decimals + 1) := by
  constructor
  · intro i a u h
    have hu := pumpSellSizing_accept_false_units h
    subst hu
    exact ⟨rfl, Int.le_ceil _, Int.ceil_lt_add_one _⟩
  · intro i a u h
    rw [raySellSizing_eq_pump i] at h
    have hu := pumpSellSizing_accept_false_units h
    subst hu
    exact ⟨rfl, Int.le_ceil _, Int.ceil_lt_add_one _⟩

/-- Claim C9, witness: the ceiling relation on a concrete accepted non-final
sell (amount 5, 2 decimals, 500 raw units), in both services. -/
theorem C9_witness :
    ((500 : ℤ) = Int.ceil ((5 : ℚ) * 10 ^ (2 : ℕ)) ∧
      (5 : ℚ) * 10 ^ (2 : ℕ) ≤ ((500 : ℤ) : ℚ) ∧
      ((500 : ℤ) : ℚ) < (5 : ℚ) * 10 ^ (2 : ℕ) + 1) ∧
    ((500 : ℤ) = Int.ceil ((5 : ℚ) * 10 ^ (2 : ℕ)) ∧
      (5 : ℚ) * 10 ^ (2 : ℕ) ≤ ((500 : ℤ) : ℚ) ∧
      ((500 : ℤ) : ℚ) < (5 : ℚ) * 10 ^ (2 : ℕ) + 1) := by
  constructor
  · exact C9_theorem.1
      { tokenAmount := 10, sourceBoughtTotal := 100, sourceSoldAfter := 10,
        targetInitialBought := 50, targetSold := 0, realBalance := 20,
        decimals := 2, realAmountInUnits := 2000 } 5 500
      (by norm_num [pumpSellSizing, abs_lt])
  · exact C9_theorem.2
      { tokenAmount := 10, sourceBoughtTotal := 100, sourceSoldAfter := 10,
        targetInitialBought := 50, targetSold := 0, realBalance := 20,
        decimals := 2, realAmountInUnits := 2000 } 5 500
      (by norm_num [raySellSizing, abs_lt])

/-! ### Lemmas about the sell execution tails -/

theorem pumpSellPoolExec_processed (env : PumpEnv) (st1 : ServiceState) (mint : String)
    (r : SellSizingResult) : (pumpSellPoolExec env st1 mint r).1.processed = st1.processed := by
  cases r
  all_goals unfold pumpSellPoolExec
  all_goals repeat' split
  all_goals simp [setTgt]

theorem pumpSellPoolExec_submitCount (env : PumpEnv) (st1 : ServiceState) (mint : String)
    (r : SellSizingResult) : submitCount (pumpSellPoolExec env st1 mint r).2 ≤ 1 := by
  cases r
  all_goals unfold pumpSellPoolExec
  all_goals repeat' split
  all_goals simp [submitCount]

theorem pumpSellPoolExec_srcMap (env : PumpEnv) (st1 : ServiceState) (mint : String)
    (r : SellSizingResult) :
    (pumpSellPoolExec env st1 mint r).1.sourceTokenBalances = st1.sourceTokenBalances := by
  cases r
  all_goals unfold pumpSellPoolExec
  all_goals repeat' split
  all_goals simp [setTgt]

theorem pumpSellPoolExec_tgtBought (env : PumpEnv) (st1 : ServiceState) (mint : String)
    (r : SellSizingResult) (m : String) :
    ((pumpSellPoolExec env st1 mint r).1.tokenBalances m).bought = (st1.tokenBalances m).bought := by
  cases r
  all_goals unfold pumpSellPoolExec
  all_goals repeat' split
  all_goals simp only [setTgt, setBal]
  all_goals try split_ifs with he
  all_goals try subst he
  all_goals simp

theorem pumpSellPoolExec_tgtSold_le (env : PumpEnv) (st1 : ServiceState) (mint : String)
    (r : SellSizingResult) (hr : ∀ a u b, r = .accept a u b → 0 < a) (m : String) :
    (st1.tokenBalances m).sold ≤ ((pumpSellPoolExec env st1 mint r).1.tokenBalances m).sold := by
  cases r with
  | reject => exact le_refl _
  | accept a u b =>
    have ha : 0 < a := hr a u b rfl
    simp only [pumpSellPoolExec]
    repeat' split
    all_goals simp only [setTgt, setBal]
    all_goals try split_ifs with he
    all_goals try subst he
    all_goals try simp
    all_goals try linarith

theorem pumpSellJupiterExec_processed (env : PumpEnv) (st1 : ServiceState) (mint : String)
    (r : SellSizingResult) : (pumpSellJupiterExec env st1 mint r).1.processed = st1.processed := by
  cases r
  all_goals unfold pumpSellJupiterExec
  all_goals repeat' split
  all_goals simp [setTgt]

theorem pumpSellJupiterExec_submitCount (env : PumpEnv) (st1 : ServiceState) (mint : String)
    (r : SellSizingResult) : submitCount (pumpSellJupiterExec env st1 mint r).2 ≤ 1 := by
  cases r
  all_goals unfold pumpSellJupiterExec
  all_goals repeat' split
  all_goals simp [submitCount]

theorem pumpSellJupiterExec_srcMap (env : PumpEnv) (st1 : ServiceState) (mint : String)
    (r : SellSizingResult) :
    (pumpSellJupiterExec env st1 mint r).1.sourceTokenBalances = st1.sourceTokenBalances := by
  cases r
  all_goals unfold pumpSellJupiterExec
  all_goals repeat' split
  all_goals simp [setTgt]

theorem pumpSellJupiterExec_tgtBought (env : PumpEnv) (st1 : ServiceState) (mint : String)
    (r : SellSizingResult) (m : String) :
    ((pumpSellJupiterExec env st1 mint r).1.tokenBalances m).bought = (st1.tokenBalances m).bought := by
  cases r
  all_goals unfold pumpSellJupiterExec
  all_goals repeat' split
  all_goals simp only [setTgt, setBal]
  all_goals try split_ifs with he
  all_goals try subst he
  all_goals simp

theorem pumpSellJupiterExec_tgtSold_le (env : PumpEnv) (st1 : ServiceState) (mint : String)
    (r : SellSizingResult) (hr : ∀ a u b, r = .accept a u b → 0 < a) (m : String) :
    (st1.tokenBalances m).sold ≤ ((pumpSellJupiterExec env st1 mint r).1.tokenBalances m).sold := by
  cases r with
  | reject => exact le_refl _
  | accept a u b =>
    have ha : 0 < a := hr a u b rfl
    simp only [pumpSellJupiterExec]
    repeat' split
    all_goals simp only [setTgt, setBal]
    all_goals try split_ifs with he
    all_goals try subst he
    all_goals try simp
    all_goals try linarith

theorem raySellExec_processed (env : RayEnv) (st1 : ServiceState) (mint : String)
    (r : SellSizingResult) : (raySellExec env st1 mint r).1.processed = st1.processed := by
  cases r
  all_goals unfold raySellExec
  all_goals repeat' split
  all_goals simp [setTgt]

theorem raySellExec_submitCount (env : RayEnv) (st1 : ServiceState) (mint : String)
    (r : SellSizingResult) : submitCount (raySellExec env st1 mint r).2 ≤ 1 := by
  cases r
  all_goals unfold raySellExec
  all_goals repeat' split
  all_goals simp [submitCount]

theorem raySellExec_srcMap (env : RayEnv) (st1 : ServiceState) (mint : String)
    (r : SellSizingResult) :
    (raySellExec env st1 mint r).1.sourceTokenBalances = st1.sourceTokenBalances := by
  cases r
  all_goals unfold raySellExec
  all_goals repeat' split
  all_goals simp [setTgt]

theorem raySellExec_tgtBought (env : RayEnv) (st1 : ServiceState) (mint : String)
    (r : SellSizingResult) (m : String) :
    ((raySellExec env st1 mint r).1.tokenBalances m).bought = (st1.tokenBalances m).bought := by
  cases r
  all_goals unfold raySellExec
  all_goals repeat' split
  all_goals simp only [setTgt, setBal]
  all_goals try split_ifs with he
  all_goals try subst he
  all_goals simp

theorem raySellExec_tgtSold_le (env : RayEnv) (st1 : ServiceState) (mint : String)
    (r : SellSizingResult) (hr : ∀ a u b, r = .accept a u b → 0 < a) (m : String) :
    (st1.tokenBalances m).sold ≤ ((raySellExec env st1 mint r).1.tokenBalances m).sold := by
  cases r with
  | reject => exact le_refl _
  | accept a u b =>
    have ha : 0 < a := hr a u b rfl
    simp only [raySellExec]
    repeat' split
    all_goals simp only [setTgt, setBal]
    all_goals try split_ifs with he
    all_goals try subst he
    all_goals try simp
    all_goals try linarith

theorem pumpSellPoolExec_tokenBalances_of_unconfirmed (env : PumpEnv) (st1 : ServiceState)
    (mint : String) (r : SellSizingResult) (h : env.sellConfirmed = false) :
    (pumpSellPoolExec env st1 mint r).1.tokenBalances = st1.tokenBalances := by
  cases r
  all_goals unfold pumpSellPoolExec
  all_goals repeat' split
  all_goals simp_all [setTgt]

theorem pumpSellJupiterExec_tokenBalances_of_unconfirmed (env : PumpEnv) (st1 : ServiceState)
    (mint : String) (r : SellSizingResult) (h : env.sellConfirmed = false) :
    (pumpSellJupiterExec env st1 mint r).1.tokenBalances = st1.tokenBalances := by
  cases r
  all_goals unfold pumpSellJupiterExec
  all_goals repeat' split
  all_goals simp_all [setTgt]

/-! ### Monotonicity and sign lemmas for the handler blocks (claim C3) -/

theorem pumpBuyPool_srcBought_le (cfg : Config) (st : ServiceState) (env : PumpEnv)
    (mint : String) (q : ℚ) (hq : 0 ≤ q) (m : String) :
    (st.sourceTokenBalances m).bought ≤ ((pumpBuyPool cfg st env mint q).1.sourceTokenBalances m).bought := by
  unfold pumpBuyPool
  repeat' split
  all_goals simp only [setSrc, setTgt, setBal]
  all_goals split_ifs with he
  all_goals try subst he
  all_goals simp
  all_goals linarith

theorem pumpBuyPool_srcSold_eq (cfg : Config) (st : ServiceState) (env : PumpEnv)
    (mint : String) (q : ℚ) (m : String) :
    ((pumpBuyPool cfg st env mint q).1.sourceTokenBalances m).sold = (st.sourceTokenBalances m).sold := by
  unfold pumpBuyPool
  repeat' split
  all_goals simp only [setSrc, setTgt, setBal]
  all_goals split_ifs with he
  all_goals try subst he
  all_goals simp

theorem pumpBuyPool_tgtSold_eq (cfg : Config) (st : ServiceState) (env : PumpEnv)
    (mint : String) (q : ℚ) (m : String) :
    ((pumpBuyPool cfg st env mint q).1.tokenBalances m).sold = (st.tokenBalances m).sold := by
  unfold pumpBuyPool
  repeat' split
  all_goals simp only [setSrc, setTgt, setBal]
  all_goals split_ifs with he
  all_goals try subst he
  all_goals simp

theorem pumpBuyPool_tgtBought_nonneg (cfg : Config) (st : ServiceState) (env : PumpEnv)
    (mint : String) (q : ℚ) (hq : 0 ≤ q) (hpct : 0 ≤ cfg.tradePercentage)
    (m : String) (h0 : 0 ≤ (st.tokenBalances m).bought) :
    0 ≤ ((pumpBuyPool cfg st env mint q).1.tokenBalances m).bought := by
  unfold pumpBuyPool
  repeat' split
  all_goals simp only [setSrc, setTgt, setBal]
  all_goals try split_ifs with he
  all_goals try subst he
  all_goals try simp
  all_goals first
    | exact h0
    | linarith
    | exact mul_nonneg hq hpct
    | assumption

theorem pumpBuyJupiter_srcBought_le (cfg : Config) (st : ServiceState) (env : PumpEnv)
    (mint : String) (q : ℚ) (hq : 0 ≤ q) (m : String) :
    (st.sourceTokenBalances m).bought ≤ ((pumpBuyJupiter cfg st env mint q).1.sourceTokenBalances m).bought := by
  unfold pumpBuyJupiter
  repeat' split
  all_goals simp only [setSrc, setTgt, setBal]
  all_goals split_ifs with he
  all_goals try subst he
  all_goals simp
  all_goals linarith

theorem pumpBuyJupiter_srcSold_eq (cfg : Config) (st : ServiceState) (env : PumpEnv)
    (mint : String) (q : ℚ) (m : String) :
    ((pumpBuyJupiter cfg st env mint q).1.sourceTokenBalances m).sold = (st.sourceTokenBalances m).sold := by
  unfold pumpBuyJupiter
  repeat' split
  all_goals simp only [setSrc, setTgt, setBal]
  all_goals split_ifs with he
  all_goals try subst he
  all_goals simp

theorem pumpBuyJupiter_tgtSold_eq (cfg : Config) (st : ServiceState) (env : PumpEnv)
    (mint : String) (q : ℚ) (m : String) :
    ((pumpBuyJupiter cfg st env mint q).1.tokenBalances m).sold = (st.tokenBalances m).sold := by
  unfold pumpBuyJupiter
  repeat' split
  all_goals simp only [setSrc, setTgt, setBal]
  all_goals split_ifs with he
  all_goals try subst he
  all_goals simp

theorem pumpBuyJupiter_tgtBought_nonneg (cfg : Config) (st : ServiceState) (env : PumpEnv)
    (mint : String) (q : ℚ) (hq : 0 ≤ q) (hpct : 0 ≤ cfg.tradePercentage)
    (m : String) (h0 : 0 ≤ (st.tokenBalances m).bought) :
    0 ≤ ((pumpBuyJupiter cfg st env mint q).1.tokenBalances m).bought := by
  unfold pumpBuyJupiter
  repeat' split
  all_goals simp only [setSrc, setTgt, setBal]
  all_goals try split_ifs with he
  all_goals try subst he
  all_goals try simp
  all_goals first
    | exact h0
    | linarith
    | exact mul_nonneg hq hpct
    | assumption

theorem rayBuy_srcBought_le (cfg : Config) (st : ServiceState) (env : RayEnv)
    (mint : String) (q : ℚ) (hq : 0 ≤ q) (m : String) :
    (st.sourceTokenBalances m).bought ≤ ((rayBuy cfg st env mint q).1.sourceTokenBalances m).bought := by
  unfold rayBuy
  repeat' split
  all_goals simp only [setSrc, setTgt, setBal]
  all_goals split_ifs with he
  all_goals try subst he
  all_goals simp
  all_goals linarith

theorem rayBuy_srcSold_eq (cfg : Config) (st : ServiceState) (env : RayEnv)
    (mint : String) (q : ℚ) (m : String) :
    ((rayBuy cfg st env mint q).1.sourceTokenBalances m).sold = (st.sourceTokenBalances m).sold := by
  unfold rayBuy
  repeat' split
  all_goals simp only [setSrc, setTgt, setBal]
  all_goals split_ifs with he
  all_goals try subst he
  all_goals simp

theorem rayBuy_tgtSold_eq (cfg : Config) (st : ServiceState) (env : RayEnv)
    (mint : String) (q : ℚ) (m : String) :
    ((rayBuy cfg st env mint q).1.tokenBalances m).sold = (st.tokenBalances m).sold := by
  unfold rayBuy
  repeat' split
  all_goals simp only [setSrc, setTgt, setBal]
  all_goals split_ifs with he
  all_goals try subst he
  all_goals simp

theorem rayBuy_tgtBought_nonneg (cfg : Config) (st : ServiceState) (env : RayEnv)
    (mint : String) (q : ℚ) (hq : 0 ≤ q) (hpct : 0 ≤ cfg.raydiumTradePercentage)
    (m : String) (h0 : 0 ≤ (st.tokenBalances m).bought) :
    0 ≤ ((rayBuy cfg st env mint q).1.tokenBalances m).bought := by
  unfold rayBuy
  repeat' split
  all_goals simp only [setSrc, setTgt, setBal]
  all_goals try split_ifs with he
  all_goals try subst he
  all_goals try simp
  all_goals first
    | exact h0
    | linarith
    | exact mul_nonneg hq hpct
    | assumption

theorem pumpSellPool_srcBought_eq (cfg : Config) (st : ServiceState) (env : PumpEnv)
    (mint : String) (q : ℚ) (m : String) :
    ((pumpSellPool cfg st env mint q).1.sourceTokenBalances m).bought = (st.sourceTokenBalances m).bought := by
  unfold pumpSellPool
  rw [pumpSellPoolExec_srcMap]
  simp only [setSrc, setBal]
  split_ifs with he
  · subst he; simp
  · rfl

theorem pumpSellPool_srcSold_le (cfg : Config) (st : ServiceState) (env : PumpEnv)
    (mint : String) (q : ℚ) (hq : 0 ≤ q) (m : String) :
    (st.sourceTokenBalances m).sold ≤ ((pumpSellPool cfg st env mint q).1.sourceTokenBalances m).sold := by
  unfold pumpSellPool
  rw [pumpSellPoolExec_srcMap]
  simp only [setSrc, setBal]
  split_ifs with he
  · subst he; simp; linarith
  · exact le_refl _

theorem pumpSellPool_tgtBought_eq (cfg : Config) (st : ServiceState) (env : PumpEnv)
    (mint : String) (q : ℚ) (m : String) :
    ((pumpSellPool cfg st env mint q).1.tokenBalances m).bought = (st.tokenBalances m).bought := by
  unfold pumpSellPool
  exact pumpSellPoolExec_tgtBought _ _ _ _ m

theorem pumpSellPool_tgtSold_le (cfg : Config) (st : ServiceState) (env : PumpEnv)
    (mint : String) (q : ℚ) (m : String) :
    (st.tokenBalances m).sold ≤ ((pumpSellPool cfg st env mint q).1.tokenBalances m).sold := by
  unfold pumpSellPool
  exact pumpSellPoolExec_tgtSold_le _ _ _ _ (fun a u b h => pumpSellSizing_accept_pos h) m

theorem pumpSellJupiter_srcBought_eq (cfg : Config) (st : ServiceState) (env : PumpEnv)
    (mint : String) (q : ℚ) (m : String) :
    ((pumpSellJupiter cfg st env mint q).1.sourceTokenBalances m).bought = (st.sourceTokenBalances m).bought := by
  unfold pumpSellJupiter
  rw [pumpSellJupiterExec_srcMap]
  simp only [setSrc, setBal]
  split_ifs with he
  · subst he; simp
  · rfl

theorem pumpSellJupiter_srcSold_le (cfg : Config) (st : ServiceState) (env : PumpEnv)
    (mint : String) (q : ℚ) (hq : 0 ≤ q) (m : String) :
    (st.sourceTokenBalances m).sold ≤ ((pumpSellJupiter cfg st env mint q).1.sourceTokenBalances m).sold := by
  unfold pumpSellJupiter
  rw [pumpSellJupiterExec_srcMap]
  simp only [setSrc, setBal]
  split_ifs with he
  · subst he; simp; linarith
  · exact le_refl _

theorem pumpSellJupiter_tgtBought_eq (cfg : Config) (st : ServiceState) (env : PumpEnv)
    (mint : String) (q : ℚ) (m : String) :
    ((pumpSellJupiter cfg st env mint q).1.tokenBalances m).bought = (st.tokenBalances m).bought := by
  unfold pumpSellJupiter
  exact pumpSellJupiterExec_tgtBought _ _ _ _ m

theorem pumpSellJupiter_tgtSold_le (cfg : Config) (st : ServiceState) (env : PumpEnv)
    (mint : String) (q : ℚ) (m : String) :
    (st.tokenBalances m).sold ≤ ((pumpSellJupiter cfg st env mint q).1.tokenBalances m).sold := by
  unfold pumpSellJupiter
  exact pumpSellJupiterExec_tgtSold_le _ _ _ _ (fun a u b h => pumpSellSizing_accept_pos h) m

theorem raySell_srcBought_eq (cfg : Config) (st : ServiceState) (env : RayEnv)
    (mint : String) (q : ℚ) (m : String) :
    ((raySell cfg st env mint q).1.sourceTokenBalances m).bought = (st.sourceTokenBalances m).bought := by
  unfold raySell
  rw [raySellExec_srcMap]
  simp only [setSrc, setBal]
  split_ifs with he
  · subst he; simp
  · rfl

theorem raySell_srcSold_le (cfg : Config) (st : ServiceState) (env : RayEnv)
    (mint : String) (q : ℚ) (hq : 0 ≤ q) (m : String) :
    (st.sourceTokenBalances m).sold ≤ ((raySell cfg st env mint q).1.sourceTokenBalances m).sold := by
  unfold raySell
  rw [raySellExec_srcMap]
  simp only [setSrc, setBal]
  split_ifs with he
  · subst he; simp; linarith
  · exact le_refl _

theorem raySell_tgtBought_eq (cfg : Config) (st : ServiceState) (env : RayEnv)
    (mint : String) (q : ℚ) (m : String) :
    ((raySell cfg st env mint q).1.tokenBalances m).bought = (st.tokenBalances m).bought := by
  unfold raySell
  exact raySellExec_tgtBought _ _ _ _ m

theorem raySell_tgtSold_le (cfg : Config) (st : ServiceState) (env : RayEnv)
    (mint : String) (q : ℚ) (m : String) :
    (st.tokenBalances m).sold ≤ ((raySell cfg st env mint q).1.tokenBalances m).sold := by
  unfold raySell
  exact raySellExec_tgtSold_le _ _ _ _ (fun a u b h => pumpSellSizing_accept_pos ((raySellSizing_eq_pump _).symm.trans h)) m

/-! ### Structural lemmas about the handler blocks -/

theorem pumpBuyPool_processed (cfg : Config) (st : ServiceState) (env : PumpEnv)
    (mint : String) (q : ℚ) : (pumpBuyPool cfg st env mint q).1.processed = st.processed := by
  unfold pumpBuyPool
  repeat' split
  all_goals simp [setSrc, setTgt]

theorem pumpBuyJupiter_processed (cfg : Config) (st : ServiceState) (env : PumpEnv)
    (mint : String) (q : ℚ) : (pumpBuyJupiter cfg st env mint q).1.processed = st.processed := by
  unfold pumpBuyJupiter
  repeat' split
  all_goals simp [setSrc, setTgt]

theorem pumpSellPool_processed (cfg : Config) (st : ServiceState) (env : PumpEnv)
    (mint : String) (q : ℚ) : (pumpSellPool cfg st env mint q).1.processed = st.processed := by
  unfold pumpSellPool
  rw [pumpSellPoolExec_processed]
  simp [setSrc]

theorem pumpSellJupiter_processed (cfg : Config) (st : ServiceState) (env : PumpEnv)
    (mint : String) (q : ℚ) : (pumpSellJupiter cfg st env mint q).1.processed = st.processed := by
  unfold pumpSellJupiter
  rw [pumpSellJupiterExec_processed]
  simp [setSrc]

theorem rayBuy_processed (cfg : Config) (st : ServiceState) (env : RayEnv)
    (mint : String) (q : ℚ) : (rayBuy cfg st env mint q).1.processed = st.processed := by
  unfold rayBuy
  repeat' split
  all_goals simp [setSrc, setTgt]

theorem raySell_processed (cfg : Config) (st : ServiceState) (env : RayEnv)
    (mint : String) (q : ℚ) : (raySell cfg st env mint q).1.processed = st.processed := by
  unfold raySell
  rw [raySellExec_processed]
  simp [setSrc]

theorem pumpBuyPool_submitCount (cfg : Config) (st : ServiceState) (env : PumpEnv)
    (mint : String) (q : ℚ) : submitCount (pumpBuyPool cfg st env mint q).2 ≤ 1 := by
  unfold pumpBuyPool
  repeat' split
  all_goals simp [submitCount]

theorem pumpBuyJupiter_submitCount (cfg : Config) (st : ServiceState) (env : PumpEnv)
    (mint : String) (q : ℚ) : submitCount (pumpBuyJupiter cfg st env mint q).2 ≤ 1 := by
  unfold pumpBuyJupiter
  repeat' split
  all_goals simp [submitCount]

theorem pumpSellPool_submitCount (cfg : Config) (st : ServiceState) (env : PumpEnv)
    (mint : String) (q : ℚ) : submitCount (pumpSellPool cfg st env mint q).2 ≤ 1 := by
  unfold pumpSellPool
  exact pumpSellPoolExec_submitCount _ _ _ _

theorem pumpSellJupiter_submitCount (cfg : Config) (st : ServiceState) (env : PumpEnv)
    (mint : String) (q : ℚ) : submitCount (pumpSellJupiter cfg st env mint q).2 ≤ 1 := by
  unfold pumpSellJupiter
  exact pumpSellJupiterExec_submitCount _ _ _ _

theorem rayBuy_submitCount (cfg : Config) (st : ServiceState) (env : RayEnv)
    (mint : String) (q : ℚ) : submitCount (rayBuy cfg st env mint q).2 ≤ 1 := by
  unfold rayBuy
  repeat' split
  all_goals simp [submitCount]

theorem raySell_submitCount (cfg : Config) (st : ServiceState) (env : RayEnv)
    (mint : String) (q : ℚ) : submitCount (raySell cfg st env mint q).2 ≤ 1 := by
  unfold raySell
  exact raySellExec_submitCount _ _ _ _

theorem pumpDispatch_processed (cfg : Config) (st1 : ServiceState) (env : PumpEnv)
    (f : TradeFacts) : (pumpDispatch cfg st1 env f).1.processed = st1.processed := by
  simp only [pumpDispatch]
  repeat' split
  all_goals first
    | rfl
    | rw [pumpBuyPool_processed]
    | rw [pumpBuyJupiter_processed]
    | rw [pumpSellPool_processed]
    | rw [pumpSellJupiter_processed]

theorem rayDispatch_processed (cfg : Config) (st1 : ServiceState) (env : RayEnv)
    (f : TradeFacts) : (rayDispatch cfg st1 env f).1.processed = st1.processed := by
  simp only [rayDispatch]
  repeat' split
  all_goals first
    | rfl
    | rw [rayBuy_processed]
    | rw [raySell_processed]

theorem pumpDispatch_submitCount (cfg : Config) (st1 : ServiceState) (env : PumpEnv)
    (f : TradeFacts) : submitCount (pumpDispatch cfg st1 env f).2 ≤ 1 := by
  simp only [pumpDispatch]
  repeat' split
  all_goals first
    | apply pumpBuyPool_submitCount
    | apply pumpBuyJupiter_submitCount
    | apply pumpSellPool_submitCount
    | apply pumpSellJupiter_submitCount
    | simp [submitCount]

theorem rayDispatch_submitCount (cfg : Config) (st1 : ServiceState) (env : RayEnv)
    (f : TradeFacts) : submitCount (rayDispatch cfg st1 env f).2 ≤ 1 := by
  simp only [rayDispatch]
  repeat' split
  all_goals first
    | apply rayBuy_submitCount
    | apply raySell_submitCount
    | simp [submitCount]

/-- The trace/state shape of a PumpSwap run: either a pre-mark early return
(empty trace, state untouched) or the signature was consed onto the processed
set. -/
theorem pumpProcess_shape (cfg : Config) (st : ServiceState) (env : PumpEnv)
    (signature : String) (dataPool : Option String) :
    ((pumpProcessTransaction cfg st env signature dataPool).2 = [] ∧
      (pumpProcessTransaction cfg st env signature dataPool).1 = st) ∨
    (pumpProcessTransaction cfg st env signature dataPool).1.processed
      = signature :: st.processed := by
  unfold pumpProcessTransaction
  repeat' split
  all_goals first
    | exact Or.inl ⟨rfl, rfl⟩
    | exact Or.inr rfl
    | (right; rw [pumpDispatch_processed]; rfl)
    | (right; rfl)

theorem rayProcess_shape (cfg : Config) (st : ServiceState) (env : RayEnv)
    (signature : String) (dataPool : Option String) :
    ((rayProcessTransaction cfg st env signature dataPool).2 = [] ∧
      (rayProcessTransaction cfg st env signature dataPool).1 = st) ∨
    (rayProcessTransaction cfg st env signature dataPool).1.processed
      = signature :: st.processed := by
  unfold rayProcessTransaction
  repeat' split
  all_goals first
    | exact Or.inl ⟨rfl, rfl⟩
    | exact Or.inr rfl
    | (right; rw [rayDispatch_processed]; rfl)
    | (right; rfl)

/-! ### Claims C5 and C6: idempotency and guard ordering -/

theorem submitCount_cons_mark (l : List Action) :
    submitCount (Action.mark :: l) = submitCount l := by
  simp [submitCount]

/-- Claim C5.  For both `processTransaction` handlers: (a) a run on an
already-processed identifier returns with the state unchanged and an empty
trace (no mutation, no submission); (b) any run whose trace is non-empty has
marked the identifier, so an immediate second run on the same identifier — in
any environment — is a no-op; (c) a single run submits at most one swap.
Hence processing the same identifier twice yields only the first run's ledger
mutations and at most one submission. -/
theorem C5_theorem :
    (∀ cfg st env s d, st.processed.contains s = true →
      pumpProcessTransaction cfg st env s d = (st, [])) ∧
    (∀ cfg st env s d env2 d2,
      (pumpProcessTransaction cfg st env s d).2 ≠ [] →
      pumpProcessTransaction cfg (pumpProcessTransaction cfg st env s d).1 env2 s d2
        = ((pumpProcessTransaction cfg st env s d).1, [])) ∧
    (∀ cfg st env s d,
      submitCount (pumpProcessTransaction cfg st env s d).2 ≤ 1) ∧
    (∀ cfg st env s d, st.processed.contains s = true →
      rayProcessTransaction cfg st env s d = (st, [])) ∧
    (∀ cfg st env s d env2 d2,
      (rayProcessTransaction cfg st env s d).2 ≠ [] →
      rayProcessTransaction cfg (rayProcessTransaction cfg st env s d).1 env2 s d2
        = ((rayProcessTransaction cfg st env s d).1, [])) ∧
    (∀ cfg st env s d,
      submitCount (rayProcessTransaction cfg st env s d).2 ≤ 1) := by
  have pa : ∀ cfg st env s d, st.processed.contains s = true →
      pumpProcessTransaction cfg st env s d = (st, []) := by
    intro cfg st env s d h
    unfold pumpProcessTransaction
    rw [if_pos h]
  have ra : ∀ cfg st env s d, st.processed.contains s = true →
      rayProcessTransaction cfg st env s d = (st, []) := by
    intro cfg st env s d h
    unfold rayProcessTransaction
    rw [if_pos h]
  refine ⟨pa, ?_, ?_, ra, ?_, ?_⟩
  · intro cfg st env s d env2 d2 hne
    rcases pumpProcess_shape cfg st env s d with ⟨h1, _⟩ | h2
    · exact absurd h1 hne
    · apply pa
      rw [h2]
      simp
  · intro cfg st env s d
    unfold pumpProcessTransaction
    repeat' split
    all_goals try (rw [submitCount_cons_mark]; apply pumpDispatch_submitCount)
    all_goals simp [submitCount]
  · intro cfg st env s d env2 d2 hne
    rcases rayProcess_shape cfg st env s d with ⟨h1, _⟩ | h2
    · exact absurd h1 hne
    · apply ra
      rw [h2]
      simp
  · intro cfg st env s d
    unfold rayProcessTransaction
    repeat' split
    all_goals try (rw [submitCount_cons_mark]; apply rayDispatch_submitCount)
    all_goals simp [submitCount]

/-- Claim C5, witness: a run on the already-processed identifier `s1` leaves
the state untouched and performs no action, in both services. -/
theorem C5_witness :
    pumpProcessTransaction sampleCfg processedState idleEnv "s1" none
      = (processedState, []) ∧
    rayProcessTransaction sampleCfg processedState idleRayEnv "s1" none
      = (processedState, []) := by
  constructor
  · exact C5_theorem.1 sampleCfg processedState idleEnv "s1" none
      (by simp [processedState])
  · exact C5_theorem.2.2.2.1 sampleCfg processedState idleRayEnv "s1" none
      (by simp [processedState])

/-- Claim C6, amended.  In the PumpSwap and Raydium `processTransaction`
handlers the idempotency guard is checked first and the identifier is marked
immediately after the venue/classification match, before any ledger mutation
and before any swap submission.  The PumpPortal WebSocket handler, however,
marks the identifier only at the END of the handler, after swap execution
(and an early-rejected sell never marks it) — see the counterexample. -/
theorem C6_theorem :
    (∀ cfg st env s d,
      markPrecedesSubmits (pumpProcessTransaction cfg st env s d).2 = true ∧
      markPrecedesMutations (pumpProcessTransaction cfg st env s d).2 = true) ∧
    (∀ cfg st env s d,
      markPrecedesSubmits (rayProcessTransaction cfg st env s d).2 = true ∧
      markPrecedesMutations (rayProcessTransaction cfg st env s d).2 = true) := by
  constructor
  · intro cfg st env s d
    constructor
    all_goals unfold pumpProcessTransaction
    all_goals repeat' split
    all_goals rfl
  · intro cfg st env s d
    constructor
    all_goals unfold rayProcessTransaction
    all_goals repeat' split
    all_goals rfl

/-- Claim C6, counterexample.  The claim says the identifier is marked before
swap execution in EVERY venue service and never only after execution
completes.  In the PumpPortal WebSocket handler a successful mirrored sell
produces the trace below: the swap submission (and the ledger mutations)
precede the mark, which happens only at the end of the handler. -/
theorem C6_counterexample :
    (portalHandleMessage sampleCfg c6State c6Env "sig1" "S" "sell" "M" 40).2
      = [Action.mutSrcSold, Action.submit, Action.mutTgtSold, Action.mark] ∧
    markPrecedesSubmits
      [Action.mutSrcSold, Action.submit, Action.mutTgtSold, Action.mark] = false := by
  constructor
  · norm_num [portalHandleMessage, sampleCfg, c6State, c6Env, setSrc, setTgt,
      setBal, zeroBal, markSig]
    rw [if_neg (show ¬ ("sell" = "buy") by decide)]
  · rfl

/-! ### Classification lemmas and claim C4 -/

theorem classifyDeltas_sell_not_buy {s t : String} {tx : ParsedTx} {i : ℕ}
    (h : (classifyDeltas s t tx i).isSell = true) :
    (classifyDeltas s t tx i).isBuy = false := by
  have key : ∀ a b : Bool, (!a && b) = true → (a && !b) = false := by decide
  simp only [classifyDeltas] at h ⊢
  exact key _ _ h

theorem classifyDeltas_sell_not_settlement {s t : String} {tx : ParsedTx} {i : ℕ}
    (h : (classifyDeltas s t tx i).isSell = true) :
    (((classifyDeltas s t tx i).inputMint == s) &&
      ((classifyDeltas s t tx i).outputMint == s)) = false := by
  have key : ∀ a b : Bool, (!a && b) = true → (a && b) = false := by decide
  simp only [classifyDeltas] at h ⊢
  exact key _ _ h

/-- Claim C4, amended.  In the PumpSwap service every venue signal is
individually sufficient (program id among the account keys, a log marker, or
the payload hint — OR-ed).  In the Raydium service the program-id /
inner-instruction / log-key / payload-hint signals are OR-ed among themselves,
but classification additionally REQUIRES a log line containing `Swap`:
program-id presence alone is sufficient only together with such a log line,
and every classified Raydium transaction carries one. -/
theorem C4_theorem :
    (∀ cfg tx dataPool, cfg.pumpSwapProgramId ∈ tx.accountKeys →
      pumpIsVenueTx cfg tx dataPool = true) ∧
    (∀ cfg tx dataPool,
      (tx.logMessages.any fun l => strContains l "Instruction: Buy" ||
        strContains l "Instruction: Sell" || strContains l "pump-amm") = true →
      pumpIsVenueTx cfg tx dataPool = true) ∧
    (∀ cfg tx, pumpIsVenueTx cfg tx (some "pump-amm") = true) ∧
    (∀ cfg tx dataPool, cfg.raydiumProgramId ∈ tx.instructionProgramIds →
      (tx.logMessages.any fun l => strContains l "Swap") = true →
      rayIsVenueTx cfg tx dataPool = true) ∧
    (∀ cfg tx dataPool, rayIsVenueTx cfg tx dataPool = true →
      (tx.logMessages.any fun l => strContains l "Swap") = true) := by
  refine ⟨?_, ?_, ?_, ?_, ?_⟩
  · intro cfg tx dataPool h
    simp [pumpIsVenueTx, h]
  · intro cfg tx dataPool h
    simp [pumpIsVenueTx, h]
  · intro cfg tx
    simp [pumpIsVenueTx]
  · intro cfg tx dataPool hmem hlog
    have h1 : (tx.instructionProgramIds.any fun p =>
        p == cfg.raydiumProgramId || p == cfg.raydiumCpmmProgramId) = true :=
      List.any_eq_true.mpr ⟨_, hmem, by simp⟩
    simp [rayIsVenueTx, h1, hlog]
  · intro cfg tx dataPool h
    simp only [rayIsVenueTx, Bool.and_eq_true] at h
    exact h.2

/-- Claim C4, counterexample.  The claim says a transaction carrying the
venue's program identifier is classified as that venue's swap even when no log
marker matches.  `c4Tx` carries the Raydium program id among its instructions,
yet the Raydium service does not classify it (no log line contains `Swap`) and
the handler returns without marking or processing anything. -/
theorem C4_counterexample :
    sampleCfg.raydiumProgramId ∈ c4Tx.instructionProgramIds ∧
    rayIsVenueTx sampleCfg c4Tx none = false ∧
    rayProcessTransaction sampleCfg emptyState c4Env "s4" none = (emptyState, []) := by
  refine ⟨by simp [c4Tx, sampleCfg], ?_, ?_⟩
  · simp [rayIsVenueTx, c4Tx, sampleCfg, strContains]
  · simp [rayProcessTransaction, rayIsVenueTx, c4Tx, emptyState, c4Env, sampleCfg,
      strContains]

/-- Claim C4, witness: the PumpSwap program-id signal alone classifies
`sellTx` (no log marker matches), and the Raydium program-id signal together
with a `Swap` log line classifies `raySellTx`. -/
theorem C4_witness :
    pumpIsVenueTx sampleCfg sellTx none = true ∧
    rayIsVenueTx sampleCfg raySellTx none = true := by
  constructor
  · exact C4_theorem.1 sampleCfg sellTx none (by simp [sellTx, sampleCfg])
  · exact C4_theorem.2.2.2.1 sampleCfg raySellTx none
      (by simp [raySellTx, sampleCfg]) (by decide)

/-! ### Claim C7: no controlled-side mutation on confirmation timeout -/

theorem pumpSellPool_tokenBalances (cfg : Config) (st : ServiceState) (env : PumpEnv)
    (mint : String) (q : ℚ) (h : env.sellConfirmed = false) :
    (pumpSellPool cfg st env mint q).1.tokenBalances = st.tokenBalances := by
  unfold pumpSellPool
  rw [pumpSellPoolExec_tokenBalances_of_unconfirmed _ _ _ _ h]
  rfl

theorem pumpSellJupiter_tokenBalances (cfg : Config) (st : ServiceState) (env : PumpEnv)
    (mint : String) (q : ℚ) (h : env.sellConfirmed = false) :
    (pumpSellJupiter cfg st env mint q).1.tokenBalances = st.tokenBalances := by
  unfold pumpSellJupiter
  rw [pumpSellJupiterExec_tokenBalances_of_unconfirmed _ _ _ _ h]
  rfl

/-- On a classified sell with no confirmed status, the PumpSwap dispatch
leaves the controlled-side ledger untouched. -/
theorem pumpDispatch_tokenBalances_of_sell (cfg : Config) (st1 : ServiceState)
    (env : PumpEnv) (f : TradeFacts) (hsell : f.isSell = true)
    (hbuy : f.isBuy = false) (hconf : env.sellConfirmed = false) :
    (pumpDispatch cfg st1 env f).1.tokenBalances = st1.tokenBalances := by
  simp only [pumpDispatch, hbuy, hsell]
  repeat' split
  all_goals first
    | rfl
    | (rw [pumpSellPool_tokenBalances _ _ _ _ _ hconf]; done)
    | (rw [pumpSellJupiter_tokenBalances _ _ _ _ _ hconf]; done)
    | simp_all

/-- Claim C7.  For every transaction the PumpSwap service classifies as a
sell, if the confirmation polling never observes a confirmed status
(`sellConfirmed = false`, the outcome of the 5-attempt / 2-second loop), the
handler aborts before mutating the controlled-side ledger: every
controlled-side record (bought and sold) is exactly what it was before
execution. -/
theorem C7_theorem :
    ∀ cfg st env s d (tx : ParsedTx) (i : ℕ) (m : String),
      env.tx = some tx →
      tx.accountKeys.findIdx? (fun k => k == cfg.targetWalletAddress) = some i →
      (classifyDeltas cfg.solMint cfg.targetWalletAddress tx i).isSell = true →
      env.sellConfirmed = false →
      (pumpProcessTransaction cfg st env s d).1.tokenBalances m
        = st.tokenBalances m := by
  intro cfg st env s d tx i m htx hidx hsell hconf
  have hbuy := classifyDeltas_sell_not_buy hsell
  unfold pumpProcessTransaction
  rw [htx]
  simp only [hidx]
  repeat' split
  all_goals first
    | rfl
    | (rw [pumpDispatch_tokenBalances_of_sell _ _ _ _ hsell hbuy hconf]; rfl)

/-- Claim C7, witness: on the concrete unconfirmed sell the controlled-side
record of `M` stays `(5, 0)`. -/
theorem C7_witness :
    (pumpProcessTransaction sampleCfg pumpSellState pumpSellEnv "s3" none).1.tokenBalances "M"
      = pumpSellState.tokenBalances "M" := by
  exact C7_theorem sampleCfg pumpSellState pumpSellEnv "s3" none sellTx 0 "M"
    rfl (by decide)
    (by norm_num [classifyDeltas, sellTx, sampleCfg, findInputToken, findOutputToken]; decide)
    rfl

/-! ### Claim C8: timing of the source-side sold increment -/

theorem pumpSellPool_srcSold_eq (cfg : Config) (st : ServiceState) (env : PumpEnv)
    (mint : String) (q : ℚ) :
    ((pumpSellPool cfg st env mint q).1.sourceTokenBalances mint).sold
      = (st.sourceTokenBalances mint).sold + q := by
  unfold pumpSellPool
  rw [pumpSellPoolExec_srcMap]
  simp [setSrc, setBal]

theorem pumpSellJupiter_srcSold_eq (cfg : Config) (st : ServiceState) (env : PumpEnv)
    (mint : String) (q : ℚ) :
    ((pumpSellJupiter cfg st env mint q).1.sourceTokenBalances mint).sold
      = (st.sourceTokenBalances mint).sold + q := by
  unfold pumpSellJupiter
  rw [pumpSellJupiterExec_srcMap]
  simp [setSrc, setBal]

theorem raySell_srcSold_eq (cfg : Config) (st : ServiceState) (env : RayEnv)
    (mint : String) (q : ℚ) :
    ((raySell cfg st env mint q).1.sourceTokenBalances mint).sold
      = (st.sourceTokenBalances mint).sold + q := by
  unfold raySell
  rw [raySellExec_srcMap]
  simp [setSrc, setBal]

/-- Once the settlement, native-balance and quote guards have passed, the
PumpSwap dispatch increments the source-side sold total by the observed
amount, whatever the pool triage and the later guards decide. -/
theorem pumpDispatch_srcSold_of_sell (cfg : Config) (st1 : ServiceState)
    (env : PumpEnv) (f : TradeFacts) (hsell : f.isSell = true)
    (hbuy : f.isBuy = false)
    (hns : ((f.inputMint == cfg.solMint) && (f.outputMint == cfg.solMint)) = false)
    (hsol : ¬ env.solBalance < 5/100000) (hq : env.quoteFound = true) :
    ((pumpDispatch cfg st1 env f).1.sourceTokenBalances f.mint).sold
      = (st1.sourceTokenBalances f.mint).sold + f.tokenAmount := by
  simp only [pumpDispatch, hbuy, hsell]
  repeat' split
  all_goals first
    | (rw [pumpSellPool_srcSold_eq]; done)
    | (rw [pumpSellJupiter_srcSold_eq]; done)
    | simp_all

/-- Once the settlement and native-balance guards have passed, the Raydium
dispatch increments the source-side sold total by the observed amount,
whatever the later guards decide. -/
theorem rayDispatch_srcSold_of_sell (cfg : Config) (st1 : ServiceState)
    (env : RayEnv) (f : TradeFacts) (hsell : f.isSell = true)
    (hbuy : f.isBuy = false)
    (hns : ((f.inputMint == cfg.solMint) && (f.outputMint == cfg.solMint)) = false)
    (hsol : ¬ env.solBalance < 5/100000) :
    ((rayDispatch cfg st1 env f).1.sourceTokenBalances f.mint).sold
      = (st1.sourceTokenBalances f.mint).sold + f.tokenAmount := by
  simp only [rayDispatch, hbuy, hsell]
  repeat' split
  all_goals first
    | (rw [raySell_srcSold_eq]; done)
    | simp_all

/-- Claim C8, amended.  The source-side sold increment does not precede every
rejection guard: in both services the settlement-only and native-SOL-balance
guards run first, and in the PumpSwap service the pre-sizing pool/quote fetch
does too (a failed quote returns before the increment — see the
counterexample).  Once those pre-sizing guards have passed, the increment is
applied before every remaining guard, so a sell subsequently rejected (zero
historical baseline, no live tokens, non-positive clamped amount, Raydium
sell-quote failure, failed or unconfirmed execution) still leaves the
source-side sold total permanently increased by the observed amount. -/
theorem C8_theorem :
    (∀ cfg st env s d (tx : ParsedTx) (i : ℕ),
      st.processed.contains s = false →
      env.tx = some tx →
      tx.accountKeys.headD "" = cfg.targetWalletAddress →
      pumpIsVenueTx cfg tx d = true →
      tx.accountKeys.findIdx? (fun k => k == cfg.targetWalletAddress) = some i →
      (classifyDeltas cfg.solMint cfg.targetWalletAddress tx i).isSell = true →
      ¬ env.solBalance < 5/100000 →
      env.quoteFound = true →
      ((pumpProcessTransaction cfg st env s d).1.sourceTokenBalances
          (classifyDeltas cfg.solMint cfg.targetWalletAddress tx i).mint).sold
        = (st.sourceTokenBalances
            (classifyDeltas cfg.solMint cfg.targetWalletAddress tx i).mint).sold
          + (classifyDeltas cfg.solMint cfg.targetWalletAddress tx i).tokenAmount) ∧
    (∀ cfg st env s d (tx : ParsedTx) (i : ℕ),
      st.processed.contains s = false →
      env.tx = some tx →
      rayIsVenueTx cfg tx d = true →
      tx.accountKeys.headD "" = cfg.raydiumTargetWallet →
      tx.accountKeys.findIdx? (fun k => k == cfg.raydiumTargetWallet) = some i →
      (classifyDeltas cfg.solMint cfg.raydiumTargetWallet tx i).isSell = true →
      ¬ env.solBalance < 5/100000 →
      ((rayProcessTransaction cfg st env s d).1.sourceTokenBalances
          (classifyDeltas cfg.solMint cfg.raydiumTargetWallet tx i).mint).sold
        = (st.sourceTokenBalances
            (classifyDeltas cfg.solMint cfg.raydiumTargetWallet tx i).mint).sold
          + (classifyDeltas cfg.solMint cfg.raydiumTargetWallet tx i).tokenAmount) := by
  constructor
  · intro cfg st env s d tx i hc htx hw hv hidx hsell hsol hq
    have hbuy := classifyDeltas_sell_not_buy hsell
    have hns := classifyDeltas_sell_not_settlement hsell
    unfold pumpProcessTransaction
    rw [htx]
    simp only [hidx]
    repeat' split
    all_goals first
      | (rw [pumpDispatch_srcSold_of_sell _ _ _ _ hsell hbuy hns hsol hq]; rfl)
      | simp_all
  · intro cfg st env s d tx i hc htx hv hw hidx hsell hsol
    have hbuy := classifyDeltas_sell_not_buy hsell
    have hns := classifyDeltas_sell_not_settlement hsell
    unfold rayProcessTransaction
    rw [htx]
    simp only [hidx]
    repeat' split
    all_goals first
      | (rw [rayDispatch_srcSold_of_sell _ _ _ _ hsell hbuy hns hsol]; rfl)
      | simp_all

/-- Claim C8, counterexample.  `sellTx` is a classified sell, yet when the
pre-sizing pool/quote fetch fails (`service.ts` 359–366) the handler returns
BEFORE the source-side sold increment of line 404: the source-side record of
`M` is left at `(10, 0)` although the sell was observed, refuting
"incremented before any rejection guard runs" for the failed-quote guard. -/
theorem C8_counterexample :
    (classifyDeltas sampleCfg.solMint sampleCfg.targetWalletAddress sellTx 0).isSell = true ∧
    (pumpProcessTransaction sampleCfg pumpSellState c8Env "s4" none).1.sourceTokenBalances "M"
      = pumpSellState.sourceTokenBalances "M" ∧
    (pumpProcessTransaction sampleCfg pumpSellState c8Env "s4" none).2 = [Action.mark] := by
  refine ⟨?_, ?_, ?_⟩
  · norm_num [classifyDeltas, sellTx, sampleCfg, findInputToken, findOutputToken]
    decide
  · norm_num [pumpProcessTransaction, pumpDispatch, pumpIsVenueTx, classifyDeltas,
      sellTx, sampleCfg, c8Env, pumpSellEnv, pumpSellState, findInputToken,
      findOutputToken, markSig, strContains]
  · norm_num [pumpProcessTransaction, pumpDispatch, pumpIsVenueTx, classifyDeltas,
      sellTx, sampleCfg, c8Env, pumpSellEnv, pumpSellState, findInputToken,
      findOutputToken, markSig, strContains]

/-- Claim C8, witness: on the concrete mirrored sells the source-side sold
total of `M` goes from 0 to 1 in both services — in the Raydium run even
though the post-sizing sell-quote fetch fails. -/
theorem C8_witness :
    ((pumpProcessTransaction sampleCfg pumpSellState pumpSellEnv "s4" none).1.sourceTokenBalances "M").sold
      = (pumpSellState.sourceTokenBalances "M").sold + 1 ∧
    ((rayProcessTransaction sampleCfg pumpSellState rayC8Env "s5" none).1.sourceTokenBalances "M").sold
      = (pumpSellState.sourceTokenBalances "M").sold + 1 := by
  constructor
  · have h := C8_theorem.1 sampleCfg pumpSellState pumpSellEnv "s4" none sellTx 0
      (by decide) rfl (by decide) (by decide) (by decide)
      (by norm_num [classifyDeltas, sellTx, sampleCfg, findInputToken, findOutputToken]; decide)
      (by norm_num [pumpSellEnv]) rfl
    have hm : (classifyDeltas sampleCfg.solMint sampleCfg.targetWalletAddress sellTx 0).mint = "M" := by
      norm_num [classifyDeltas, sellTx, sampleCfg, findInputToken, findOutputToken]
    have ha : (classifyDeltas sampleCfg.solMint sampleCfg.targetWalletAddress sellTx 0).tokenAmount = 1 := by
      norm_num [classifyDeltas, sellTx, sampleCfg, findInputToken, findOutputToken]
    rw [hm, ha] at h
    exact h
  · have h := C8_theorem.2 sampleCfg pumpSellState rayC8Env "s5" none raySellTx 0
      (by decide) rfl (by decide) (by decide) (by decide)
      (by norm_num [classifyDeltas, raySellTx, sampleCfg, findInputToken, findOutputToken]; decide)
      (by norm_num [rayC8Env])
    have hm : (classifyDeltas sampleCfg.solMint sampleCfg.raydiumTargetWallet raySellTx 0).mint = "M" := by
      norm_num [classifyDeltas, raySellTx, sampleCfg, findInputToken, findOutputToken]
    have ha : (classifyDeltas sampleCfg.solMint sampleCfg.raydiumTargetWallet raySellTx 0).tokenAmount = 1 := by
      norm_num [classifyDeltas, raySellTx, sampleCfg, findInputToken, findOutputToken]
    rw [hm, ha] at h
    exact h

/-! ### Claim C3: monotonicity of the ledger accumulators -/

theorem findInputToken_nonneg (target : String) (pres posts : List TokBal)
    (mint : String) (q : ℚ) (h : findInputToken target pres posts = some (mint, q)) :
    0 ≤ q := by
  induction pres with
  | nil => simp [findInputToken] at h
  | cons b rest ih =>
    simp only [findInputToken] at h
    split_ifs at h with h1 h2
    · simp only [Option.some.injEq, Prod.mk.injEq] at h
      rw [← h.2]
      positivity
    · exact ih h
    · exact ih h

theorem findOutputToken_nonneg (target : String) (pres posts : List TokBal)
    (mint : String) (q : ℚ) (h : findOutputToken target pres posts = some (mint, q)) :
    0 ≤ q := by
  induction posts with
  | nil => simp [findOutputToken] at h
  | cons b rest ih =>
    simp only [findOutputToken] at h
    split_ifs at h with h1 h2
    · simp only [Option.some.injEq, Prod.mk.injEq] at h
      rw [← h.2]
      positivity
    · exact ih h
    · exact ih h

/-- Both token-delta scans report non-negative amounts, so the classified
trade amount is never negative. -/
theorem classifyDeltas_tokenAmount_nonneg (s t : String) (tx : ParsedTx) (i : ℕ) :
    0 ≤ (classifyDeltas s t tx i).tokenAmount := by
  rcases ho : findOutputToken t tx.preTokenBalances tx.postTokenBalances with - | ⟨pm, pq⟩
  · rcases hi : findInputToken t tx.preTokenBalances tx.postTokenBalances with - | ⟨qm, qq⟩
    · simp [classifyDeltas, ho, hi]
    · simpa [classifyDeltas, ho, hi] using findInputToken_nonneg t _ _ qm qq hi
  · simpa [classifyDeltas, ho] using findOutputToken_nonneg t _ _ pm pq ho

theorem pumpDispatch_srcBought_le (cfg : Config) (st1 : ServiceState) (env : PumpEnv)
    (f : TradeFacts) (hq : 0 ≤ f.tokenAmount) (m : String) :
    (st1.sourceTokenBalances m).bought
      ≤ ((pumpDispatch cfg st1 env f).1.sourceTokenBalances m).bought := by
  simp only [pumpDispatch]
  repeat' split
  all_goals first
    | (rw [pumpSellPool_srcBought_eq]; done)
    | (rw [pumpSellJupiter_srcBought_eq]; done)
    | with_reducible exact pumpBuyPool_srcBought_le _ _ _ _ _ hq m
    | with_reducible exact pumpBuyJupiter_srcBought_le _ _ _ _ _ hq m
    | exact le_refl _

theorem pumpDispatch_srcSold_le (cfg : Config) (st1 : ServiceState) (env : PumpEnv)
    (f : TradeFacts) (hq : 0 ≤ f.tokenAmount) (m : String) :
    (st1.sourceTokenBalances m).sold
      ≤ ((pumpDispatch cfg st1 env f).1.sourceTokenBalances m).sold := by
  simp only [pumpDispatch]
  repeat' split
  all_goals first
    | (rw [pumpBuyPool_srcSold_eq]; done)
    | (rw [pumpBuyJupiter_srcSold_eq]; done)
    | with_reducible exact pumpSellPool_srcSold_le _ _ _ _ _ hq m
    | with_reducible exact pumpSellJupiter_srcSold_le _ _ _ _ _ hq m
    | exact le_refl _

theorem pumpDispatch_tgtSold_le (cfg : Config) (st1 : ServiceState) (env : PumpEnv)
    (f : TradeFacts) (m : String) :
    (st1.tokenBalances m).sold
      ≤ ((pumpDispatch cfg st1 env f).1.tokenBalances m).sold := by
  simp only [pumpDispatch]
  repeat' split
  all_goals first
    | (rw [pumpBuyPool_tgtSold_eq]; done)
    | (rw [pumpBuyJupiter_tgtSold_eq]; done)
    | with_reducible exact pumpSellPool_tgtSold_le _ _ _ _ _ m
    | with_reducible exact pumpSellJupiter_tgtSold_le _ _ _ _ _ m
    | exact le_refl _

theorem pumpDispatch_tgtBought_nonneg (cfg : Config) (st1 : ServiceState) (env : PumpEnv)
    (f : TradeFacts) (hq : 0 ≤ f.tokenAmount) (hpct : 0 ≤ cfg.tradePercentage)
    (m : String) (h0 : 0 ≤ (st1.tokenBalances m).bought) :
    0 ≤ ((pumpDispatch cfg st1 env f).1.tokenBalances m).bought := by
  simp only [pumpDispatch]
  repeat' split
  all_goals first
    | (rw [pumpSellPool_tgtBought_eq]; exact h0)
    | (rw [pumpSellJupiter_tgtBought_eq]; exact h0)
    | with_reducible exact pumpBuyPool_tgtBought_nonneg _ _ _ _ _ hq hpct m h0
    | with_reducible exact pumpBuyJupiter_tgtBought_nonneg _ _ _ _ _ hq hpct m h0
    | exact h0

theorem rayDispatch_srcBought_le (cfg : Config) (st1 : ServiceState) (env : RayEnv)
    (f : TradeFacts) (hq : 0 ≤ f.tokenAmount) (m : String) :
    (st1.sourceTokenBalances m).bought
      ≤ ((rayDispatch cfg st1 env f).1.sourceTokenBalances m).bought := by
  simp only [rayDispatch]
  repeat' split
  all_goals first
    | (rw [raySell_srcBought_eq]; done)
    | with_reducible exact rayBuy_srcBought_le _ _ _ _ _ hq m
    | exact le_refl _

theorem rayDispatch_srcSold_le (cfg : Config) (st1 : ServiceState) (env : RayEnv)
    (f : TradeFacts) (hq : 0 ≤ f.tokenAmount) (m : String) :
    (st1.sourceTokenBalances m).sold
      ≤ ((rayDispatch cfg st1 env f).1.sourceTokenBalances m).sold := by
  simp only [rayDispatch]
  repeat' split
  all_goals first
    | (rw [rayBuy_srcSold_eq]; done)
    | with_reducible exact raySell_srcSold_le _ _ _ _ _ hq m
    | exact le_refl _

theorem rayDispatch_tgtSold_le (cfg : Config) (st1 : ServiceState) (env : RayEnv)
    (f : TradeFacts) (m : String) :
    (st1.tokenBalances m).sold
      ≤ ((rayDispatch cfg st1 env f).1.tokenBalances m).sold := by
  simp only [rayDispatch]
  repeat' split
  all_goals first
    | (rw [rayBuy_tgtSold_eq]; done)
    | with_reducible exact raySell_tgtSold_le _ _ _ _ _ m
    | exact le_refl _

theorem rayDispatch_tgtBought_nonneg (cfg : Config) (st1 : ServiceState) (env : RayEnv)
    (f : TradeFacts) (hq : 0 ≤ f.tokenAmount) (hpct : 0 ≤ cfg.raydiumTradePercentage)
    (m : String) (h0 : 0 ≤ (st1.tokenBalances m).bought) :
    0 ≤ ((rayDispatch cfg st1 env f).1.tokenBalances m).bought := by
  simp only [rayDispatch]
  repeat' split
  all_goals first
    | (rw [raySell_tgtBought_eq]; exact h0)
    | with_reducible exact rayBuy_tgtBought_nonneg _ _ _ _ _ hq hpct m h0
    | exact h0

theorem pumpProcess_srcBought_le (cfg : Config) (st : ServiceState) (env : PumpEnv)
    (s : String) (d : Option String) (m : String) :
    (st.sourceTokenBalances m).bought
      ≤ ((pumpProcessTransaction cfg st env s d).1.sourceTokenBalances m).bought := by
  simp only [pumpProcessTransaction]
  repeat' split
  all_goals try (exact le_refl _)
  all_goals exact pumpDispatch_srcBought_le cfg (markSig st s) env _ (classifyDeltas_tokenAmount_nonneg _ _ _ _) m

theorem pumpProcess_srcSold_le (cfg : Config) (st : ServiceState) (env : PumpEnv)
    (s : String) (d : Option String) (m : String) :
    (st.sourceTokenBalances m).sold
      ≤ ((pumpProcessTransaction cfg st env s d).1.sourceTokenBalances m).sold := by
  simp only [pumpProcessTransaction]
  repeat' split
  all_goals try (exact le_refl _)
  all_goals exact pumpDispatch_srcSold_le cfg (markSig st s) env _ (classifyDeltas_tokenAmount_nonneg _ _ _ _) m

theorem pumpProcess_tgtSold_le (cfg : Config) (st : ServiceState) (env : PumpEnv)
    (s : String) (d : Option String) (m : String) :
    (st.tokenBalances m).sold
      ≤ ((pumpProcessTransaction cfg st env s d).1.tokenBalances m).sold := by
  simp only [pumpProcessTransaction]
  repeat' split
  all_goals try (exact le_refl _)
  all_goals exact pumpDispatch_tgtSold_le cfg (markSig st s) env _ m

theorem pumpProcess_tgtBought_nonneg (cfg : Config) (st : ServiceState) (env : PumpEnv)
    (s : String) (d : Option String) (m : String) (hpct : 0 ≤ cfg.tradePercentage)
    (h0 : 0 ≤ (st.tokenBalances m).bought) :
    0 ≤ ((pumpProcessTransaction cfg st env s d).1.tokenBalances m).bought := by
  simp only [pumpProcessTransaction]
  repeat' split
  all_goals try (exact h0)
  all_goals exact pumpDispatch_tgtBought_nonneg cfg (markSig st s) env _ (classifyDeltas_tokenAmount_nonneg _ _ _ _) hpct m h0

theorem rayProcess_srcBought_le (cfg : Config) (st : ServiceState) (env : RayEnv)
    (s : String) (d : Option String) (m : String) :
    (st.sourceTokenBalances m).bought
      ≤ ((rayProcessTransaction cfg st env s d).1.sourceTokenBalances m).bought := by
  simp only [rayProcessTransaction]
  repeat' split
  all_goals try (exact le_refl _)
  all_goals exact rayDispatch_srcBought_le cfg (markSig st s) env _ (classifyDeltas_tokenAmount_nonneg _ _ _ _) m

theorem rayProcess_srcSold_le (cfg : Config) (st : ServiceState) (env : RayEnv)
    (s : String) (d : Option String) (m : String) :
    (st.sourceTokenBalances m).sold
      ≤ ((rayProcessTransaction cfg st env s d).1.sourceTokenBalances m).sold := by
  simp only [rayProcessTransaction]
  repeat' split
  all_goals try (exact le_refl _)
  all_goals exact rayDispatch_srcSold_le cfg (markSig st s) env _ (classifyDeltas_tokenAmount_nonneg _ _ _ _) m

theorem rayProcess_tgtSold_le (cfg : Config) (st : ServiceState) (env : RayEnv)
    (s : String) (d : Option String) (m : String) :
    (st.tokenBalances m).sold
      ≤ ((rayProcessTransaction cfg st env s d).1.tokenBalances m).sold := by
  simp only [rayProcessTransaction]
  repeat' split
  all_goals try (exact le_refl _)
  all_goals exact rayDispatch_tgtSold_le cfg (markSig st s) env _ m

theorem rayProcess_tgtBought_nonneg (cfg : Config) (st : ServiceState) (env : RayEnv)
    (s : String) (d : Option String) (m : String) (hpct : 0 ≤ cfg.raydiumTradePercentage)
    (h0 : 0 ≤ (st.tokenBalances m).bought) :
    0 ≤ ((rayProcessTransaction cfg st env s d).1.tokenBalances m).bought := by
  simp only [rayProcessTransaction]
  repeat' split
  all_goals try (exact h0)
  all_goals exact rayDispatch_tgtBought_nonneg cfg (markSig st s) env _ (classifyDeltas_tokenAmount_nonneg _ _ _ _) hpct m h0

/-- Claim C3, amended.  Three of the four per-mint accumulators are
monotonically non-decreasing across every processing step of both services:
the source-side bought and sold totals and the controlled-side sold total.
The controlled-side bought total stays non-negative (given a non-negative
configured trade percentage) but is NOT a pure accumulator: after a buy it is
ASSIGNED the post-buy live balance read (`service.ts` 395, `raydium/index.ts`
353), which can be lower than the stored total — see the counterexample. -/
theorem C3_theorem :
    (∀ cfg st env s d m,
      (st.sourceTokenBalances m).bought
          ≤ ((pumpProcessTransaction cfg st env s d).1.sourceTokenBalances m).bought ∧
      (st.sourceTokenBalances m).sold
          ≤ ((pumpProcessTransaction cfg st env s d).1.sourceTokenBalances m).sold ∧
      (st.tokenBalances m).sold
          ≤ ((pumpProcessTransaction cfg st env s d).1.tokenBalances m).sold) ∧
    (∀ cfg st env s d m, 0 ≤ cfg.tradePercentage → 0 ≤ (st.tokenBalances m).bought →
      0 ≤ ((pumpProcessTransaction cfg st env s d).1.tokenBalances m).bought) ∧
    (∀ cfg st env s d m,
      (st.sourceTokenBalances m).bought
          ≤ ((rayProcessTransaction cfg st env s d).1.sourceTokenBalances m).bought ∧
      (st.sourceTokenBalances m).sold
          ≤ ((rayProcessTransaction cfg st env s d).1.sourceTokenBalances m).sold ∧
      (st.tokenBalances m).sold
          ≤ ((rayProcessTransaction cfg st env s d).1.tokenBalances m).sold) ∧
    (∀ cfg st env s d m, 0 ≤ cfg.raydiumTradePercentage → 0 ≤ (st.tokenBalances m).bought →
      0 ≤ ((rayProcessTransaction cfg st env s d).1.tokenBalances m).bought) := by
  refine ⟨fun cfg st env s d m =>
      ⟨pumpProcess_srcBought_le cfg st env s d m, pumpProcess_srcSold_le cfg st env s d m,
        pumpProcess_tgtSold_le cfg st env s d m⟩,
    fun cfg st env s d m hpct h0 => pumpProcess_tgtBought_nonneg cfg st env s d m hpct h0,
    fun cfg st env s d m =>
      ⟨rayProcess_srcBought_le cfg st env s d m, rayProcess_srcSold_le cfg st env s d m,
        rayProcess_tgtSold_le cfg st env s d m⟩,
    fun cfg st env s d m hpct h0 => rayProcess_tgtBought_nonneg cfg st env s d m hpct h0⟩

/-- Claim C3, counterexample.  The controlled-side bought total is not
monotonically non-decreasing: a first mirrored buy stores the live balance
100, and a second buy of the same mint overwrites it with the new live
balance 50 — a processing step strictly decreased a stored total. -/
theorem C3_counterexample :
    (c3Run1.tokenBalances "M").bought = 100 ∧
    (c3Run2.tokenBalances "M").bought = 50 ∧
    ¬ ((c3Run1.tokenBalances "M").bought ≤ (c3Run2.tokenBalances "M").bought) := by
  have hMS : ¬ ("M" = "SOL") := by decide
  have hbb : ¬ ("b2" = "b1") := by decide
  have h1 : (c3Run1.tokenBalances "M").bought = 100 := by
    norm_num [c3Run1, pumpProcessTransaction, pumpDispatch, pumpBuyPool, pumpIsVenueTx,
      classifyDeltas, buyTx, buyEnv, sampleCfg, emptyState, zeroBal, findInputToken,
      findOutputToken, markSig, setSrc, setTgt, setBal, strContains, hMS]
  have h2 : (c3Run2.tokenBalances "M").bought = 50 := by
    norm_num [c3Run2, c3Run1, pumpProcessTransaction, pumpDispatch, pumpBuyPool,
      pumpIsVenueTx, classifyDeltas, buyTx, buyEnv, sampleCfg, emptyState, zeroBal,
      findInputToken, findOutputToken, markSig, setSrc, setTgt, setBal, strContains,
      hMS, hbb]
  exact ⟨h1, h2, by rw [h1, h2]; norm_num⟩

/-- Claim C3, witness: concrete mirrored sells and buys exercising the
monotonicity and sign conjuncts of both services. -/
theorem C3_witness :
    ((pumpSellState.sourceTokenBalances "M").sold
      ≤ ((pumpProcessTransaction sampleCfg pumpSellState pumpSellEnv "s4" none).1.sourceTokenBalances "M").sold) ∧
    (0 ≤ ((pumpProcessTransaction sampleCfg emptyState (buyEnv 100) "b1" none).1.tokenBalances "M").bought) ∧
    ((pumpSellState.sourceTokenBalances "M").sold
      ≤ ((rayProcessTransaction sampleCfg pumpSellState rayC8Env "s5" none).1.sourceTokenBalances "M").sold) ∧
    (0 ≤ ((rayProcessTransaction sampleCfg emptyState idleRayEnv "b2" none).1.tokenBalances "M").bought) := by
  refine ⟨(C3_theorem.1 sampleCfg pumpSellState pumpSellEnv "s4" none "M").2.1,
    C3_theorem.2.1 sampleCfg emptyState (buyEnv 100) "b1" none "M" (by norm_num [sampleCfg])
      (by norm_num [emptyState, zeroBal]),
    (C3_theorem.2.2.1 sampleCfg pumpSellState rayC8Env "s5" none "M").2.1,
    C3_theorem.2.2.2 sampleCfg emptyState idleRayEnv "b2" none "M" (by norm_num [sampleCfg])
      (by norm_num [emptyState, zeroBal])⟩

end CopyBot

